import Mathlib

/-!
Resource synthesis for the Oracle operator (`oracle/controllers/resources.go`).

A shallow embedding of the attribute resolver, the disk sizing resolver and the
builders of the services, the config map, the persistent-volume claims, the
stateful set with its pod template, the agent deployment and the snapshots,
followed by the properties proved about them.

Conventions of the embedding:
* a Go pointer that may be nil is an `Option`;
* a Go `(value, error)` result is a pair whose second component is `none` when
  the error is nil, so the value returned next to an error stays observable;
* a Go slice is a `List` (a nil slice and an empty slice are both `[]`);
* a Go map is the list of its entries;
* a package-level variable a function assigns is threaded through the function;
* a call that panics returns `none`;
* constants of the Kubernetes API packages are written as their string values;
* log calls have no effect on the results and are left out.
-/

set_option linter.dupNamespace false

namespace Controllers

/-! ## Constants -/

def platformGCP : String := "GCP"
def platformBareMetal : String := "BareMetal"
def platformMinikube : String := "Minikube"
def platformKind : String := "Kind"
def defaultStorageClassNameGCP : String := "csi-gce-pd"
def defaultVolumeSnapshotClassNameGCP : String := "csi-gce-pd-snapshot-class"
def defaultStorageClassNameBM : String := "csi-trident"
def defaultVolumeSnapshotClassNameBM : String := "csi-trident-snapshot-class"
def defaultStorageClassNameMinikube : String := "csi-hostpath-sc"
def defaultVolumeSnapshotClassNameMinikube : String := "csi-hostpath-snapclass"

/-! ## Data model -/

/-- The errors the builders of this file create with `fmt.Errorf`; each carries
the item its message names. -/
inductive Error where
  | unsupportedPlatform (p : String)
  | unknownAttribute (name : String)
  | storageClassNotIdentified (disk : String)
  | clusterScopedWithNamespacedOwner (ownerNamespace : String)
  | crossNamespaceOwner (ownerNamespace objectNamespace : String)
  | noKindRegistered (goType : String)
  | alreadyOwned (controller : String)
  deriving DecidableEq, Repr

/-- A `resource.Quantity`: an unscaled amount and a decimal scale. -/
structure Quantity where
  value : Int
  scale : Int := 0
  deriving DecidableEq, Repr

/-- The method `Quantity.IsZero`. -/
def Quantity.IsZero (q : Quantity) : Bool := q.value == 0

/-- The type `commonv1alpha1.DiskSpec`. -/
structure DiskSpec where
  Name : String
  Size : Quantity := { value := 0 }
  StorageClass : String := ""
  deriving DecidableEq, Repr

/-- The fields of `v1alpha1.ConfigSpec` this file reads. -/
structure ConfigSpec where
  Platform : String := ""
  Disks : List DiskSpec := []
  StorageClass : String := ""
  VolumeSnapshotClass : String := ""
  HostAntiAffinityNamespaces : List String := []
  deriving DecidableEq, Repr

/-- The type `v1alpha1.Config` (the global config). -/
structure Config where
  Spec : ConfigSpec := {}
  deriving DecidableEq, Repr

structure platformConfig where
  storageClassName : String
  volumeSnapshotClassName : String
  deriving DecidableEq, Repr

/-! ## Platform default table and attribute resolver -/

def getPlatformConfig (p : String) : Except Error platformConfig :=
  if p = platformGCP then
    .ok { storageClassName := defaultStorageClassNameGCP,
          volumeSnapshotClassName := defaultVolumeSnapshotClassNameGCP }
  else if p = platformBareMetal then
    .ok { storageClassName := defaultStorageClassNameBM,
          volumeSnapshotClassName := defaultVolumeSnapshotClassNameBM }
  else if p = platformMinikube ∨ p = platformKind then
    .ok { storageClassName := defaultStorageClassNameMinikube,
          volumeSnapshotClassName := defaultVolumeSnapshotClassNameMinikube }
  else
    .error (.unsupportedPlatform p)

def platformConfig.finalStorageClassName (pc : platformConfig) (config : Option Config) : String :=
  let storageClassName := pc.storageClassName
  match config with
  | some c => c.Spec.StorageClass
  | none => storageClassName

def platformConfig.finalVolumeSnapshotClassName (pc : platformConfig) (config : Option Config) :
    String :=
  let volumeSnapshotClassName := pc.volumeSnapshotClassName
  match config with
  | some c => c.Spec.VolumeSnapshotClass
  | none => volumeSnapshotClassName

def ConfigAttribute (name explicitRequest : String) (config : Option Config) :
    String × Option Error :=
  if explicitRequest ≠ "" then
    (explicitRequest, none)
  else
    -- Assume the default platform as GCP. This can be overridden via a Config.
    let platform :=
      match config with
      | some c => if c.Spec.Platform ≠ "" then c.Spec.Platform else platformGCP
      | none => platformGCP
    match getPlatformConfig platform with
    | .error err => ("", some err)
    | .ok gc =>
      if name = "StorageClass" then
        (gc.finalStorageClassName config, none)
      else if name = "VolumeSnapshotClass" then
        (gc.finalVolumeSnapshotClassName config, none)
      else
        ("", some (.unknownAttribute name))

/-! ## Disk sizing resolver -/

/-- The package-level `defaultDiskSize`, `resource.MustParse("100Gi")`. -/
def defaultDiskSize : Quantity := { value := 100 * 2 ^ 30 }

/-- The type `metav1.OwnerReference`. -/
structure OwnerReference where
  APIVersion : String
  Kind : String
  Name : String
  UID : String
  Controller : Option Bool := none
  BlockOwnerDeletion : Option Bool := none
  deriving DecidableEq, Repr

/-- The type `schema.GroupVersionKind`. -/
structure GroupVersionKind where
  Group : String := ""
  Version : String := ""
  Kind : String := ""
  deriving DecidableEq, Repr

/-- The method `GroupVersion().String()`. -/
def GroupVersionKind.groupVersion (gvk : GroupVersionKind) : String :=
  if gvk.Group = "" then gvk.Version else gvk.Group ++ "/" ++ gvk.Version

/-- A `runtime.Scheme`, as far as `apiutil.GVKForObject` reads it: the kind
registered for a Go type; a type without an entry is not registered. -/
abbrev Scheme := List (String × GroupVersionKind)

/-- The fields of `corev1.ConfigMap` this file sets or reads. -/
structure ConfigMap where
  APIVersion : String := ""
  Kind : String := ""
  Name : String := ""
  Namespace : String := ""
  Data : List (String × String) := []
  OwnerReferences : List OwnerReference := []
  deriving DecidableEq, Repr

/-- The field `GCP` of `v1alpha1.DBNetworkServiceOptions`. -/
structure DBNetworkServiceOptionsGCP where
  LoadBalancerType : String := ""
  deriving DecidableEq, Repr

/-- The type `v1alpha1.DBNetworkServiceOptions`. -/
structure DBNetworkServiceOptions where
  GCP : DBNetworkServiceOptionsGCP := {}
  deriving DecidableEq, Repr

/-- The fields of `v1alpha1.InstanceSpec` this file reads. `Services` is the Go
map `map[Service]bool`, listed as its entries. -/
structure InstanceSpec where
  Version : String := ""
  Services : List (String × Bool) := []
  SourceCidrRanges : List String := []
  DBNetworkServiceOptions : Option DBNetworkServiceOptions := none
  MinMemoryForDBContainer : String := ""
  DatabaseUID : Option Int := none
  DatabaseGID : Option Int := none
  DBUniqueName : String := ""
  DBDomain : String := ""
  deriving DecidableEq, Repr

/-- The fields of `v1alpha1.Instance` this file reads. -/
structure Instance where
  Name : String := ""
  Namespace : String := ""
  UID : String := ""
  Spec : InstanceSpec := {}
  deriving DecidableEq, Repr

/-- The fields of `v1alpha1.RestoreSpec` this file reads. -/
structure RestoreSpec where
  BackupID : String := ""
  deriving DecidableEq, Repr

/-- The data fields of `StsParams` (the build-parameter bundle); its pointers
`Inst` and `ConfigMap`, which the builders dereference unconditionally, are
taken as non-nil. -/
structure StsParams where
  Inst : Instance := {}
  Scheme : Scheme := []
  ConfigMap : ConfigMap := {}
  Namespace : String := ""
  StsName : String := ""
  PrivEscalation : Bool := false
  Images : List (String × String) := []
  Disks : List DiskSpec := []
  Config : Option Config := none
  Restore : Option RestoreSpec := none
  deriving DecidableEq, Repr

/-- One `for _, d := range disks` loop of `findDiskSize`: the size of the first
entry named `diskName` whose size is not zero, `none` when the loop falls through. -/
def findDiskSize.scan (diskName : String) : List DiskSpec → Option Quantity
  | [] => none
  | d :: rest =>
    if d.Name = diskName ∧ ¬ d.Size.IsZero = true then some d.Size
    else findDiskSize.scan diskName rest

/-- `findDiskSize`; the package-level map `defaultDiskSpecs`, declared outside
this file, is the first argument (an association list read with `List.lookup`). -/
def findDiskSize (defaultDiskSpecs : List (String × DiskSpec)) (diskName : String)
    (sp : StsParams) : Quantity :=
  match defaultDiskSpecs.lookup diskName with
  | none => defaultDiskSize
  | some spec =>
    match findDiskSize.scan diskName sp.Disks with
    | some size => size
    | none =>
      match sp.Config with
      | some c =>
        match findDiskSize.scan diskName c.Spec.Disks with
        | some size => size
        | none => spec.Size
      | none => spec.Size

/-! ## Storage resource builder -/

/-- The type `corev1.TypedLocalObjectReference`. -/
structure TypedLocalObjectReference where
  APIGroup : Option String
  Kind : String
  Name : String
  deriving DecidableEq, Repr

/-- The fields of `corev1.PersistentVolumeClaim` that `NewPVCs` sets, and the
owner references of its metadata, which `NewPVCs` leaves empty. -/
structure PersistentVolumeClaim where
  APIVersion : String
  Kind : String
  Name : String
  Namespace : String
  AccessModes : List String
  Requests : List (String × Quantity)
  StorageClassName : Option String
  DataSource : Option TypedLocalObjectReference
  OwnerReferences : List OwnerReference := []
  deriving DecidableEq, Repr

/-- The constant `corev1.ResourceStorage`. -/
def ResourceStorage : String := "storage"

/-- The body of the loop of `NewPVCs` over the remaining disks, `pvcs` being the
claims built so far. `GetPVCNameAndMount` is declared outside this file and is
an argument. -/
def NewPVCs.loop (defaultDiskSpecs : List (String × DiskSpec))
    (GetPVCNameAndMount : String → String → String × String) (sp : StsParams) :
    List DiskSpec → List PersistentVolumeClaim → List PersistentVolumeClaim × Option Error
  | [], pvcs => (pvcs, none)
  | diskSpec :: rest, pvcs =>
    let rl := [(ResourceStorage, findDiskSize defaultDiskSpecs diskSpec.Name sp)]
    let nameAndMount := GetPVCNameAndMount sp.Inst.Name diskSpec.Name
    let pvcName := nameAndMount.1
    let mount := nameAndMount.2
    -- Determine storage class (from disk spec or config)
    let resolved := ConfigAttribute "StorageClass" diskSpec.StorageClass sp.Config
    let storageClass := resolved.1
    let err := resolved.2
    if err ≠ none ∨ storageClass = "" then
      ([], some (.storageClassNotIdentified diskSpec.Name))
    else
      let pvc : PersistentVolumeClaim :=
        { APIVersion := "v1", Kind := "PersistentVolumeClaim",
          Name := pvcName, Namespace := sp.Inst.Namespace,
          AccessModes := ["ReadWriteOnce"],
          Requests := rl,
          StorageClassName := some storageClass,
          DataSource := none }
      let pvc :=
        match sp.Restore with
        | some r =>
          if r.BackupID ≠ "" then
            { pvc with
              DataSource := some
                ({ APIGroup := some "snapshot.storage.k8s.io",
                   Kind := "VolumeSnapshot",
                   Name := r.BackupID ++ "-" ++ mount } : TypedLocalObjectReference) }
          else pvc
        | none => pvc
      NewPVCs.loop defaultDiskSpecs GetPVCNameAndMount sp rest (pvcs ++ [pvc])

/-- `NewPVCs`: the loop over `sp.Disks`, started with no claims. -/
def NewPVCs (defaultDiskSpecs : List (String × DiskSpec))
    (GetPVCNameAndMount : String → String → String × String) (sp : StsParams) :
    List PersistentVolumeClaim × Option Error :=
  NewPVCs.loop defaultDiskSpecs GetPVCNameAndMount sp sp.Disks []

/-! ## Declarations of other files and packages -/

/-- The constants and helpers this file uses and that are declared elsewhere
(package `controllers`, `consts`, `commonv1alpha1`, `common`). The three name
formats stand for `fmt.Sprintf(format, name)`. -/
structure External where
  SvcName : String → String
  DbdaemonSvcName : String → String
  AgentSvcName : String → String
  DatabasePodAppLabel : String
  SecureListenerPort : Int
  SSLListenerPort : Int
  DefaultDBDaemonPort : Int
  DefaultConfigAgentPort : Int
  DefaultMonitoringAgentPort : Int
  MonitoringAgentName : String
  Monitoring : String
  GetSourceOracleBase : String → String
  GetSourceOracleInventory : String → String
  GetSourceOracleHome : String → String

/-! ## Owner references (`ctrl.SetControllerReference`) -/

/-- What `SetControllerReference` reads of an owner: its Go type and metadata. -/
structure Owner where
  GoType : String
  Name : String := ""
  Namespace : String := ""
  UID : String := ""
  deriving DecidableEq, Repr

/-- The type `v1alpha1.Backup`, of which this file reads the metadata. -/
structure Backup where
  Name : String := ""
  Namespace : String := ""
  UID : String := ""
  deriving DecidableEq, Repr

def Instance.asOwner (inst : Instance) : Owner :=
  { GoType := "Instance", Name := inst.Name, Namespace := inst.Namespace, UID := inst.UID }

def Backup.asOwner (backup : Backup) : Owner :=
  { GoType := "Backup", Name := backup.Name, Namespace := backup.Namespace, UID := backup.UID }

/-- The function `validateOwner` of controller-runtime: a namespaced owner needs
an object in the same namespace. -/
def validateOwner (owner : Owner) (objectNamespace : String) : Option Error :=
  if owner.Namespace ≠ "" then
    if objectNamespace = "" then
      some (.clusterScopedWithNamespacedOwner owner.Namespace)
    else if owner.Namespace ≠ objectNamespace then
      some (.crossNamespaceOwner owner.Namespace objectNamespace)
    else none
  else none

/-- The group of an API version string, as `schema.ParseGroupVersion` reads it. -/
def parseGroup (apiVersion : String) : Option String :=
  match apiVersion.toList.count '/' with
  | 0 => some ""
  | 1 => some (String.mk (apiVersion.toList.takeWhile (fun c => c ≠ '/')))
  | _ => none

/-- The function `referSameObject` of controller-runtime. -/
def referSameObject (a b : OwnerReference) : Bool :=
  match parseGroup a.APIVersion, parseGroup b.APIVersion with
  | some ga, some gb => ga == gb && a.Kind == b.Kind && a.Name == b.Name
  | _, _ => false

/-- The function `upsertOwnerRef` of controller-runtime: replace the reference
to the same object, or append. -/
def upsertOwnerRef (ref : OwnerReference) : List OwnerReference → List OwnerReference
  | [] => [ref]
  | r :: rest => if referSameObject r ref then ref :: rest else r :: upsertOwnerRef ref rest

/-- The library function `ctrl.SetControllerReference(owner, controlled, scheme)`,
from its source in controller-runtime. The controlled object is given by its
namespace and owner references; the result is the error, or the owner
references the object holds afterwards. -/
def SetControllerReference (owner : Owner) (objectNamespace : String)
    (ownerReferences : List OwnerReference) (scheme : Scheme) :
    Except Error (List OwnerReference) :=
  match validateOwner owner objectNamespace with
  | some err => .error err
  | none =>
    match scheme.lookup owner.GoType with
    | none => .error (.noKindRegistered owner.GoType)
    | some gvk =>
      let ref : OwnerReference :=
        { APIVersion := gvk.groupVersion, Kind := gvk.Kind, Name := owner.Name,
          UID := owner.UID, BlockOwnerDeletion := some true, Controller := some true }
      match ownerReferences.find? (fun r => r.Controller == some true) with
      | some existing =>
        if referSameObject existing ref then .ok (upsertOwnerRef ref ownerReferences)
        else .error (.alreadyOwned existing.Name)
      | none => .ok (upsertOwnerRef ref ownerReferences)

/-! ## Network resource builder -/

/-- The type `corev1.ServicePort`; `TargetPort` is the integer of an
`intstr.IntOrString`, 0 when unset. -/
structure ServicePort where
  Name : String
  Protocol : String
  Port : Int
  TargetPort : Int := 0
  deriving DecidableEq, Repr

/-- The type `corev1.LoadBalancerIngress`. -/
structure LoadBalancerIngress where
  IP : String := ""
  Hostname : String := ""
  deriving DecidableEq, Repr

/-- The fields of `corev1.Service` this file sets or reads; the maps are lists
of entries, `Type_` is the field `Spec.Type` and `Ingress` is
`Status.LoadBalancer.Ingress`. -/
structure Service where
  APIVersion : String := ""
  Kind : String := ""
  Name : String := ""
  Namespace : String := ""
  Labels : List (String × String) := []
  Annotations : List (String × String) := []
  OwnerReferences : List OwnerReference := []
  Selector : List (String × String) := []
  Ports : List ServicePort := []
  Type_ : String := ""
  Ingress : List LoadBalancerIngress := []
  deriving DecidableEq, Repr

/-- The initial value of the package-level variable `sourceCidrRanges`. -/
def sourceCidrRanges : List String := ["0.0.0.0/0"]

/-- `NewSvc`. The package-level variable `sourceCidrRanges`, which the function
assigns, is threaded through: its value before the call is the argument
`sourceCidrRanges`, its value after the call the first component of the result. -/
def NewSvc (k : External) (sourceCidrRanges : List String) (inst : Instance)
    (scheme : Scheme) (lb : String) : List String × Service × Option Error :=
  let sourceCidrRanges :=
    if inst.Spec.SourceCidrRanges.length > 0 then inst.Spec.SourceCidrRanges
    else sourceCidrRanges
  let lbType := if lb = "node" then "NodePort" else "LoadBalancer"
  let svcNameFull := if lb = "node" then k.SvcName inst.Name ++ "-" ++ lb else k.SvcName inst.Name
  let svcAnnotations : List (String × String) :=
    if lb = "node" then []
    else
      match inst.Spec.DBNetworkServiceOptions with
      | some networkOpts =>
        if networkOpts.GCP.LoadBalancerType = "Internal" then
          [("cloud.google.com/load-balancer-type", "Internal")]
        else []
      | none => []
  let svc : Service :=
    { APIVersion := "v1", Kind := "Service",
      Name := svcNameFull, Namespace := inst.Namespace, Annotations := svcAnnotations,
      Selector := [("instance", inst.Name)],
      Ports :=
        [{ Name := "secure-listener", Protocol := "TCP", Port := k.SecureListenerPort,
           TargetPort := k.SecureListenerPort },
         { Name := "ssl-listener", Protocol := "TCP", Port := k.SSLListenerPort,
           TargetPort := k.SSLListenerPort }],
      Type_ := lbType }
  -- Set the Instance resource to own the Service resource.
  match SetControllerReference inst.asOwner svc.Namespace svc.OwnerReferences scheme with
  | .error err => (sourceCidrRanges, svc, some err)
  | .ok refs => (sourceCidrRanges, { svc with OwnerReferences := refs }, none)

/-- `NewDBDaemonSvc`. -/
def NewDBDaemonSvc (k : External) (inst : Instance) (scheme : Scheme) : Service × Option Error :=
  let svc : Service :=
    { APIVersion := "v1", Kind := "Service",
      Name := k.DbdaemonSvcName inst.Name, Namespace := inst.Namespace,
      Selector := [("instance", inst.Name)],
      Ports :=
        [{ Name := "dbdaemon", Protocol := "TCP", Port := k.DefaultDBDaemonPort,
           TargetPort := k.DefaultDBDaemonPort }],
      Type_ := "ClusterIP" }
  match SetControllerReference inst.asOwner svc.Namespace svc.OwnerReferences scheme with
  | .error err => (svc, some err)
  | .ok refs => ({ svc with OwnerReferences := refs }, none)

def configAgentName : String := "config-agent"

/-- The loop `for service, enabled := range inst.Spec.Services` of `NewAgentSvc`
over the remaining entries of the map, `ports` being the ports so far. -/
def NewAgentSvc.loop (k : External) : List (String × Bool) → List ServicePort → List ServicePort
  | [], ports => ports
  | (service, enabled) :: rest, ports =>
    if service = k.Monitoring then
      if enabled = true then
        NewAgentSvc.loop k rest
          (ports ++ [{ Name := k.MonitoringAgentName, Protocol := "TCP",
                       Port := k.DefaultMonitoringAgentPort }])
      else NewAgentSvc.loop k rest ports
    else NewAgentSvc.loop k rest ports

/-- `NewAgentSvc`. -/
def NewAgentSvc (k : External) (inst : Instance) (scheme : Scheme) : Service × Option Error :=
  let ports : List ServicePort :=
    [{ Name := configAgentName, Protocol := "TCP", Port := k.DefaultConfigAgentPort,
       TargetPort := k.DefaultConfigAgentPort }]
  let ports := NewAgentSvc.loop k inst.Spec.Services ports
  let svc : Service :=
    { APIVersion := "v1", Kind := "Service",
      Name := k.AgentSvcName inst.Name, Namespace := inst.Namespace,
      Labels := [("app", "agent-svc")],
      Selector := [("instance-agent", inst.Name ++ "-agent")],
      Ports := ports,
      Type_ := "ClusterIP" }
  match SetControllerReference inst.asOwner svc.Namespace svc.OwnerReferences scheme with
  | .error err => (svc, some err)
  | .ok refs => ({ svc with OwnerReferences := refs }, none)

/-- The library function `net.JoinHostPort`: a host that contains a colon (a
literal IPv6 address) is put in square brackets. -/
def JoinHostPort (host port : String) : String :=
  if ':' ∈ host.toList then "[" ++ host ++ "]:" ++ port
  else host ++ ":" ++ port

/-- `SvcURL`; `toString port` is `fmt.Sprintf("%d", port)`. -/
def SvcURL (svc : Service) (port : Int) : String :=
  match svc.Ingress with
  | [] => ""
  | first :: _ =>
    let hostName := if first.Hostname = "" then first.IP else first.Hostname
    JoinHostPort hostName (toString port)

/-! ## Config map and stateful set -/

def scriptDir : String := "/agents"
def defaultUID : Int := 54321
def defaultGID : Int := 54322
def safeMinMemoryForDBContainer : String := "4.0Gi"

/-- `NewConfigMap`. -/
def NewConfigMap (k : External) (inst : Instance) (scheme : Scheme) (cmName : String) :
    ConfigMap × Option Error :=
  let cm : ConfigMap :=
    { APIVersion := "v1", Kind := "ConfigMap",
      Name := cmName, Namespace := inst.Namespace,
      Data :=
        [("SCRIPTS_DIR", scriptDir),
         ("INSTALL_DIR", "/stage"),
         ("HEALTHCHECK_DB_SCRIPT", "health-check-db.sh"),
         ("ORACLE_BASE", k.GetSourceOracleBase inst.Spec.Version),
         ("ORACLE_INV", k.GetSourceOracleInventory inst.Spec.Version),
         ("ORACLE_HOME", k.GetSourceOracleHome inst.Spec.Version),
         ("LD_LIBRARY_PATH",
            "export LD_LIBRARY_PATH=" ++ k.GetSourceOracleHome inst.Spec.Version
              ++ "/lib:/usr/lib\n")] }
  -- Set the Instance resource to own the ConfigMap resource.
  match SetControllerReference inst.asOwner cm.Namespace cm.OwnerReferences scheme with
  | .error err => (cm, some err)
  | .ok refs => ({ cm with OwnerReferences := refs }, none)

/-- The type `corev1.ContainerPort`. -/
structure ContainerPort where
  Name : String
  Protocol : String
  ContainerPort : Int
  deriving DecidableEq, Repr

/-- The type `corev1.VolumeMount`. -/
structure VolumeMount where
  Name : String
  MountPath : String
  deriving DecidableEq, Repr

/-- The type `corev1.SecurityContext`. -/
structure SecurityContext where
  RunAsUser : Option Int := none
  RunAsGroup : Option Int := none
  RunAsNonRoot : Option Bool := none
  AllowPrivilegeEscalation : Option Bool := none
  deriving DecidableEq, Repr

/-- The fields of `corev1.Container` this file sets: `Requests` is
`Resources.Requests` and `EnvFrom` lists the names of the config maps the
`EnvFrom` entries refer to. -/
structure Container where
  Name : String := ""
  Image : String := ""
  Command : List String := []
  Args : List String := []
  Ports : List ContainerPort := []
  Requests : List (String × Quantity) := []
  EnvFrom : List String := []
  VolumeMounts : List VolumeMount := []
  SecurityContext : Option SecurityContext := none
  ImagePullPolicy : String := ""
  deriving DecidableEq, Repr

/-- The type `corev1.PodSecurityContext`. -/
structure PodSecurityContext where
  RunAsUser : Option Int := none
  RunAsGroup : Option Int := none
  FSGroup : Option Int := none
  RunAsNonRoot : Option Bool := none
  deriving DecidableEq, Repr

/-- A `corev1.Volume`; `EmptyDir` tells whether its source is an empty directory. -/
structure Volume where
  Name : String
  EmptyDir : Bool := false
  deriving DecidableEq, Repr

/-- The type `corev1.PodAffinityTerm`, its label selector given by `MatchLabels`. -/
structure PodAffinityTerm where
  MatchLabels : List (String × String) := []
  Namespaces : List String := []
  TopologyKey : String := ""
  deriving DecidableEq, Repr

/-- The fields of `corev1.PodSpec` this file sets; `PodAffinity` and
`PodAntiAffinity` are the terms required during scheduling. -/
structure PodSpec where
  SecurityContext : Option PodSecurityContext := none
  Containers : List Container := []
  InitContainers : List Container := []
  ShareProcessNamespace : Option Bool := none
  Volumes : List Volume := []
  PodAffinity : List PodAffinityTerm := []
  PodAntiAffinity : List PodAffinityTerm := []
  deriving DecidableEq, Repr

/-- The type `corev1.PodTemplateSpec`. -/
structure PodTemplateSpec where
  Labels : List (String × String) := []
  Namespace : String := ""
  Spec : PodSpec := {}
  deriving DecidableEq, Repr

/-- The fields of `appsv1.StatefulSet` this file sets. -/
structure StatefulSet where
  APIVersion : String := ""
  Kind : String := ""
  Name : String := ""
  Namespace : String := ""
  OwnerReferences : List OwnerReference := []
  Replicas : Option Int := none
  SelectorMatchLabels : List (String × String) := []
  Template : PodTemplateSpec := {}
  VolumeClaimTemplates : List PersistentVolumeClaim := []
  deriving DecidableEq, Repr

/-- `NewSts`. -/
def NewSts (sp : StsParams) (pvcs : List PersistentVolumeClaim) (podTemplate : PodTemplateSpec) :
    StatefulSet × Option Error :=
  let replicas : Int := 1
  let sts : StatefulSet :=
    { APIVersion := "apps/v1", Kind := "StatefulSet",
      Name := sp.StsName, Namespace := sp.Inst.Namespace,
      Replicas := some replicas,
      SelectorMatchLabels := [("instance", sp.Inst.Name), ("statefulset", sp.StsName)],
      Template := podTemplate,
      VolumeClaimTemplates := pvcs }
  -- Set the Instance resource to own the StatefulSet resource.
  match SetControllerReference sp.Inst.asOwner sts.Namespace sts.OwnerReferences sp.Scheme with
  | .error err => (sts, some err)
  | .ok refs => ({ sts with OwnerReferences := refs }, none)

/-! ## Agent deployment builder -/

/-- The data fields of `AgentDeploymentParams`; `Inst` is taken as non-nil. -/
structure AgentDeploymentParams where
  Inst : Instance := {}
  Config : Option Config := none
  Scheme : Scheme := []
  Name : String := ""
  Images : List (String × String) := []
  PrivEscalation : Bool := false
  Args : List (String × List String) := []
  Services : List String := []
  deriving DecidableEq, Repr

/-- The fields of `appsv1.Deployment` this file sets. -/
structure Deployment where
  APIVersion : String := ""
  Kind : String := ""
  Name : String := ""
  Namespace : String := ""
  OwnerReferences : List OwnerReference := []
  Replicas : Option Int := none
  SelectorMatchLabels : List (String × String) := []
  Template : PodTemplateSpec := {}
  deriving DecidableEq, Repr

/-- Reading a Go `map[string]string` at a key: the zero value when absent. -/
def mapGet (m : List (String × String)) (key : String) : String :=
  (m.lookup key).getD ""

/-- The loop `for _, s := range agentDeployment.Services` of
`NewAgentDeployment`, `containers` being the containers so far. -/
def NewAgentDeployment.loop (k : External) (agentDeployment : AgentDeploymentParams)
    (monitoringAgentArgs : List String) (imagePullPolicy : String) :
    List String → List Container → List Container
  | [], containers => containers
  | s :: rest, containers =>
    if s = k.Monitoring then
      NewAgentDeployment.loop k agentDeployment monitoringAgentArgs imagePullPolicy rest
        (containers ++
          [{ Name := k.MonitoringAgentName,
             Image := mapGet agentDeployment.Images "monitoring",
             Command := ["/monitoring_agent"],
             Args := monitoringAgentArgs,
             Ports := [{ Name := "oe-port", Protocol := "TCP",
                         ContainerPort := k.DefaultMonitoringAgentPort }],
             SecurityContext := some
               { AllowPrivilegeEscalation := some agentDeployment.PrivEscalation },
             ImagePullPolicy := imagePullPolicy }])
    else
      NewAgentDeployment.loop k agentDeployment monitoringAgentArgs imagePullPolicy rest
        containers

/-- `NewAgentDeployment`. -/
def NewAgentDeployment (k : External) (agentDeployment : AgentDeploymentParams) :
    Deployment × Option Error :=
  let replicas : Int := 1
  let instlabels := [("instance", agentDeployment.Inst.Name)]
  let labels := [("instance-agent", agentDeployment.Inst.Name ++ "-agent"),
                 ("deployment", agentDeployment.Name)]
  let configAgentArgs :=
    ["--port=" ++ toString k.DefaultConfigAgentPort,
     "--dbservice=" ++ k.DbdaemonSvcName agentDeployment.Inst.Name,
     "--dbport=" ++ toString k.DefaultDBDaemonPort]
  let monitoringAgentArgs :=
    ["--dbservice=" ++ k.DbdaemonSvcName agentDeployment.Inst.Name,
     "--dbport=" ++ toString k.DefaultDBDaemonPort]
  let configAgentArgs :=
    configAgentArgs ++ (agentDeployment.Args.lookup configAgentName).getD []
  -- Kind cluster can only use local images
  let imagePullPolicy :=
    match agentDeployment.Config with
    | some c => if c.Spec.Platform = platformKind then "IfNotPresent" else "Always"
    | none => "Always"
  let containers : List Container :=
    [{ Name := configAgentName,
       Image := mapGet agentDeployment.Images "config",
       Command := ["/configagent"],
       Args := configAgentArgs,
       Ports := [{ Name := "ca-port", Protocol := "TCP",
                   ContainerPort := k.DefaultConfigAgentPort }],
       SecurityContext := some
         { AllowPrivilegeEscalation := some agentDeployment.PrivEscalation },
       ImagePullPolicy := imagePullPolicy }]
  let containers :=
    NewAgentDeployment.loop k agentDeployment monitoringAgentArgs imagePullPolicy
      agentDeployment.Services containers
  let podSpec : PodSpec :=
    { SecurityContext := some {},
      Containers := containers,
      PodAffinity :=
        [{ MatchLabels := instlabels,
           Namespaces := [agentDeployment.Inst.Namespace],
           TopologyKey := "kubernetes.io/hostname" }] }
  let template : PodTemplateSpec :=
    { Labels := labels, Namespace := agentDeployment.Inst.Namespace, Spec := podSpec }
  let deployment : Deployment :=
    { APIVersion := "apps/v1", Kind := "Deployment",
      Name := agentDeployment.Name, Namespace := agentDeployment.Inst.Namespace,
      Replicas := some replicas,
      SelectorMatchLabels := labels,
      Template := template }
  match SetControllerReference agentDeployment.Inst.asOwner deployment.Namespace
      deployment.OwnerReferences agentDeployment.Scheme with
  | .error err => (deployment, some err)
  | .ok refs => ({ deployment with OwnerReferences := refs }, none)

/-! ## Workload template builder -/

/-- `buildPVCMounts`: one mount per disk of the disk list, in order. -/
def buildPVCMounts (GetPVCNameAndMount : String → String → String × String) (sp : StsParams) :
    List VolumeMount :=
  sp.Disks.map fun diskSpec =>
    let nameAndMount := GetPVCNameAndMount sp.Inst.Name diskSpec.Name
    { Name := nameAndMount.1, MountPath := "/" ++ nameAndMount.2 }

/-- The loop of `addHostpathInitContainer` that builds the shell command, `cmd`
being the command so far. -/
def addHostpathInitContainer.loop (uid gid : Int) : List VolumeMount → String → String
  | [], cmd => cmd
  | mount :: rest, cmd =>
    let cmd := if cmd ≠ "" then cmd ++ " && " else cmd
    addHostpathInitContainer.loop uid gid rest
      (cmd ++ ("chown " ++ toString uid ++ ":" ++ toString gid ++ " " ++ mount.MountPath ++ " "))

/-- `addHostpathInitContainer`. -/
def addHostpathInitContainer (GetPVCNameAndMount : String → String → String × String)
    (sp : StsParams) (containers : List Container) (uid gid : Int) : List Container :=
  let volumeMounts := buildPVCMounts GetPVCNameAndMount sp
  let cmd := addHostpathInitContainer.loop uid gid volumeMounts ""
  containers ++
    [{ Name := "prepare-pv-container",
       Image := "busybox:latest",
       Command := ["sh", "-c", cmd],
       SecurityContext := some
         { RunAsUser := some 0,
           RunAsGroup := some 0,
           RunAsNonRoot := some false,
           AllowPrivilegeEscalation := some sp.PrivEscalation },
       VolumeMounts := volumeMounts }]

/-- `NewPodTemplate`. The library function `resource.MustParse` is the argument
`MustParse`, `none` where it panics; the result is then `none` too. -/
def NewPodTemplate (k : External) (MustParse : String → Option Quantity)
    (GetPVCNameAndMount : String → String → String × String)
    (sp : StsParams) (cdbName DBDomain : String) : Option PodTemplateSpec :=
  let labels :=
    [("instance", sp.Inst.Name), ("statefulset", sp.StsName), ("app", k.DatabasePodAppLabel)]
  let minMemoryForDBContainer :=
    if sp.Inst.Spec.MinMemoryForDBContainer ≠ "" then sp.Inst.Spec.MinMemoryForDBContainer
    else safeMinMemoryForDBContainer
  -- Kind cluster can only use local images
  let imagePullPolicy :=
    match sp.Config with
    | some c => if c.Spec.Platform = platformKind then "IfNotPresent" else "Always"
    | none => "Always"
  let dataDisk := GetPVCNameAndMount sp.Inst.Name "DataDisk"
  let dataDiskPVC := dataDisk.1
  let dataDiskMountName := dataDisk.2
  match MustParse minMemoryForDBContainer with
  | none => none
  | some minMemory =>
    let containers : List Container :=
      [{ Name := "oracledb",
         Requests := [("memory", minMemory)],
         Image := mapGet sp.Images "service",
         Command := [scriptDir ++ "/init_oracle.sh"],
         Args := [cdbName, DBDomain],
         Ports :=
           [{ Name := "secure-listener", Protocol := "TCP",
              ContainerPort := k.SecureListenerPort },
            { Name := "ssl-listener", Protocol := "TCP", ContainerPort := k.SSLListenerPort }],
         VolumeMounts :=
           [{ Name := "var-tmp", MountPath := "/var/tmp" },
            { Name := "agent-repo", MountPath := "/agents" }]
             ++ buildPVCMounts GetPVCNameAndMount sp,
         SecurityContext := some { AllowPrivilegeEscalation := some sp.PrivEscalation },
         EnvFrom := [sp.ConfigMap.Name],
         ImagePullPolicy := imagePullPolicy },
       { Name := "dbdaemon",
         Image := mapGet sp.Images "service",
         Command := ["/agents/dbdaemon"],
         Args := ["--cdb_name=" ++ cdbName],
         Ports :=
           [{ Name := "dbdaemon", Protocol := "TCP", ContainerPort := k.DefaultDBDaemonPort }],
         SecurityContext := some { AllowPrivilegeEscalation := some sp.PrivEscalation },
         VolumeMounts :=
           [{ Name := "var-tmp", MountPath := "/var/tmp" },
            { Name := "agent-repo", MountPath := "/agents" }]
             ++ buildPVCMounts GetPVCNameAndMount sp,
         ImagePullPolicy := imagePullPolicy },
       { Name := "alert-log-sidecar",
         Image := mapGet sp.Images "logging_sidecar",
         Command := ["/logging_main"],
         Args := ["--logType=ALERT"],
         SecurityContext := some { AllowPrivilegeEscalation := some sp.PrivEscalation },
         VolumeMounts := [{ Name := dataDiskPVC, MountPath := "/" ++ dataDiskMountName }],
         ImagePullPolicy := imagePullPolicy },
       { Name := "listener-log-sidecar",
         Image := mapGet sp.Images "logging_sidecar",
         Command := ["/logging_main"],
         Args := ["--logType=LISTENER"],
         SecurityContext := some { AllowPrivilegeEscalation := some sp.PrivEscalation },
         VolumeMounts := [{ Name := dataDiskPVC, MountPath := "/" ++ dataDiskMountName }],
         ImagePullPolicy := imagePullPolicy }]
    let initContainers : List Container :=
      [{ Name := "dbinit",
         Image := mapGet sp.Images "dbinit",
         Command := ["sh", "-c", "cp -r agent_repo/. /agents/ && chmod -R 750 /agents/*"],
         SecurityContext := some { AllowPrivilegeEscalation := some sp.PrivEscalation },
         VolumeMounts := [{ Name := "agent-repo", MountPath := "/agents" }],
         ImagePullPolicy := imagePullPolicy }]
    let volumes : List Volume :=
      [{ Name := "var-tmp", EmptyDir := true },
       { Name := "agent-repo", EmptyDir := true }]
    let antiAffinityNamespaces : List String :=
      match sp.Config with
      | some c =>
        if c.Spec.HostAntiAffinityNamespaces.length ≠ 0 then c.Spec.HostAntiAffinityNamespaces
        else []
      | none => []
    let uid : Int :=
      match sp.Inst.Spec.DatabaseUID with
      | some uid => uid
      | none => defaultUID
    let gid : Int :=
      match sp.Inst.Spec.DatabaseGID with
      | some gid => gid
      | none => defaultGID
    -- for minikube/kind, the default csi-hostpath-driver mounts persistent volumes
    -- writable by root only, so explicitly change owner and permissions of mounted
    -- pvs with an init container.
    let initContainers :=
      match sp.Config with
      | some c =>
        if c.Spec.Platform = platformMinikube ∨ c.Spec.Platform = platformKind then
          addHostpathInitContainer GetPVCNameAndMount sp initContainers uid gid
        else initContainers
      | none => initContainers
    let podSpec : PodSpec :=
      { SecurityContext := some
          { RunAsUser := some uid,
            RunAsGroup := some gid,
            FSGroup := some gid,
            RunAsNonRoot := some true },
        Containers := containers,
        InitContainers := initContainers,
        ShareProcessNamespace := some true,
        Volumes := volumes,
        PodAntiAffinity :=
          [{ MatchLabels := [("app", k.DatabasePodAppLabel)],
             Namespaces := antiAffinityNamespaces,
             TopologyKey := "kubernetes.io/hostname" }] }
    some { Labels := labels, Namespace := sp.Namespace, Spec := podSpec }

/-! ## Snapshot resource builder -/

/-- The fields of `snapv1.VolumeSnapshot` this file sets. -/
structure VolumeSnapshot where
  APIVersion : String := ""
  Kind : String := ""
  Name : String := ""
  Namespace : String := ""
  Labels : List (String × String) := []
  OwnerReferences : List OwnerReference := []
  PersistentVolumeClaimName : Option String := none
  VolumeSnapshotClassName : Option String := none
  deriving DecidableEq, Repr

/-- The value of `snapv1.SchemeGroupVersion.String()` for the imported package
`volumesnapshot/v1beta1`. -/
def snapv1SchemeGroupVersion : String := "snapshot.storage.k8s.io/v1beta1"

/-- `NewSnapshot`. -/
def NewSnapshot (backup : Backup) (scheme : Scheme)
    (pvcName snapName volumeSnapshotClassName : String) : VolumeSnapshot × Option Error :=
  let snap : VolumeSnapshot :=
    { APIVersion := snapv1SchemeGroupVersion, Kind := "VolumeSnapshot",
      Name := snapName, Namespace := backup.Namespace, Labels := [("snap", snapName)],
      PersistentVolumeClaimName := some pvcName,
      VolumeSnapshotClassName := some volumeSnapshotClassName }
  match SetControllerReference backup.asOwner snap.Namespace snap.OwnerReferences scheme with
  | .error err => (snap, some err)
  | .ok refs => ({ snap with OwnerReferences := refs }, none)

/-- `NewSnapshotInst`. -/
def NewSnapshotInst (inst : Instance) (scheme : Scheme)
    (pvcName snapName volumeSnapshotClassName : String) : VolumeSnapshot × Option Error :=
  let snap : VolumeSnapshot :=
    { APIVersion := snapv1SchemeGroupVersion, Kind := "VolumeSnapshot",
      Name := snapName, Namespace := inst.Namespace, Labels := [("snap", snapName)],
      PersistentVolumeClaimName := some pvcName,
      VolumeSnapshotClassName := some volumeSnapshotClassName }
  match SetControllerReference inst.asOwner snap.Namespace snap.OwnerReferences scheme with
  | .error err => (snap, some err)
  | .ok refs => ({ snap with OwnerReferences := refs }, none)

/-! ## Database domain -/

/-- The library call `strings.Contains(s, ".")`. -/
def containsDot (s : String) : Bool := s.toList.contains '.'

/-- The library call `strings.SplitN(s, ".", 2)[1]` for a string that contains a
".": what follows the first "." of `s`. -/
def afterFirstDot (s : String) : String :=
  String.mk ((s.toList.dropWhile (fun c => c ≠ '.')).drop 1)

/-- `GetDBDomain`. -/
def GetDBDomain (inst : Instance) : String :=
  -- Does DBUniqueName contain a DB Domain suffix?
  if containsDot inst.Spec.DBUniqueName = true then
    let domainFromName := afterFirstDot inst.Spec.DBUniqueName
    domainFromName
  else
    inst.Spec.DBDomain

/-! ## Vocabulary of the claims -/

/-- The four platforms `getPlatformConfig` has an entry for. -/
def recognisedPlatform (p : String) : Prop :=
  p = platformGCP ∨ p = platformBareMetal ∨ p = platformMinikube ∨ p = platformKind

instance (p : String) : Decidable (recognisedPlatform p) := by
  unfold recognisedPlatform; infer_instance

/-- The effective platform of a resolution: the config's platform when a config
is present and its platform is non-empty, otherwise GCP. -/
def effectivePlatform (config : Option Config) : String :=
  match config with
  | some c => if c.Spec.Platform = "" then platformGCP else c.Spec.Platform
  | none => platformGCP

/-- An entry of a disk list that carries a size for `diskName`: it has that name
and its size is not zero. -/
def sizedFor (diskName : String) (d : DiskSpec) : Prop :=
  d.Name = diskName ∧ d.Size.IsZero = false

instance (diskName : String) (d : DiskSpec) : Decidable (sizedFor diskName d) := by
  unfold sizedFor; infer_instance

/-- The storage class of disk `d` cannot be identified: `ConfigAttribute`, called
with the disk's own storage class, returns an error or an empty value. -/
def storageClassUnresolved (config : Option Config) (d : DiskSpec) : Prop :=
  (ConfigAttribute "StorageClass" d.StorageClass config).2 ≠ none ∨
    (ConfigAttribute "StorageClass" d.StorageClass config).1 = ""

instance (config : Option Config) (d : DiskSpec) :
    Decidable (storageClassUnresolved config d) := by
  unfold storageClassUnresolved; infer_instance

/-- The claim the body of the loop of `NewPVCs` appends for disk `d` when the
disk's storage class resolved, written as one record. -/
def claimFor (defaultDiskSpecs : List (String × DiskSpec))
    (GetPVCNameAndMount : String → String → String × String) (sp : StsParams) (d : DiskSpec) :
    PersistentVolumeClaim :=
  { APIVersion := "v1", Kind := "PersistentVolumeClaim",
    Name := (GetPVCNameAndMount sp.Inst.Name d.Name).1, Namespace := sp.Inst.Namespace,
    AccessModes := ["ReadWriteOnce"],
    Requests := [(ResourceStorage, findDiskSize defaultDiskSpecs d.Name sp)],
    StorageClassName := some (ConfigAttribute "StorageClass" d.StorageClass sp.Config).1,
    DataSource :=
      match sp.Restore with
      | some r =>
        if r.BackupID = "" then none
        else some { APIGroup := some "snapshot.storage.k8s.io", Kind := "VolumeSnapshot",
                    Name := r.BackupID ++ "-" ++ (GetPVCNameAndMount sp.Inst.Name d.Name).2 }
      | none => none,
    OwnerReferences := [] }

/-- The owner references `refs` are exactly one reference, and it points at
`owner` as a controller: it carries the owner's name and UID and the kind the
scheme registers for the owner's type. -/
def ownedOnlyBy (owner : Owner) (scheme : Scheme) (refs : List OwnerReference) : Prop :=
  ∃ r gvk, refs = [r] ∧ scheme.lookup owner.GoType = some gvk ∧
    r.Name = owner.Name ∧ r.UID = owner.UID ∧ r.Kind = gvk.Kind ∧
    r.APIVersion = gvk.groupVersion ∧ r.Controller = some true

/-- A label selector (a map of required labels) matches a set of labels: every
entry of the selector is an entry of the labels. -/
def selectorMatches (selector labels : List (String × String)) : Prop :=
  ∀ kv ∈ selector, labels.lookup kv.1 = some kv.2

instance (selector labels : List (String × String)) :
    Decidable (selectorMatches selector labels) := by
  unfold selectorMatches; infer_instance

/-! ## Sample inputs -/

/-- A built-in disk table with two logical disks, used for concrete runs. -/
def sampleDiskSpecs : List (String × DiskSpec) :=
  [("DataDisk", { Name := "DataDisk", Size := { value := 100 * 2 ^ 30 } }),
   ("LogDisk", { Name := "LogDisk", Size := { value := 150 * 2 ^ 30 } })]

/-- A claim-name function used for concrete runs: the mount is "u02" for
"DataDisk", "u03" for "LogDisk" and empty otherwise. -/
def sampleGetPVCNameAndMount (instName diskName : String) : String × String :=
  let mount :=
    if diskName = "DataDisk" then "u02" else if diskName = "LogDisk" then "u03" else ""
  (instName ++ "-pvc-" ++ mount, mount)

/-- Values for the declarations of other files, used for concrete runs. -/
def sampleExternal : External :=
  { SvcName := fun name => name ++ "-svc",
    DbdaemonSvcName := fun name => name ++ "-dbdaemon-svc",
    AgentSvcName := fun name => name ++ "-agent-svc",
    DatabasePodAppLabel := "db-op",
    SecureListenerPort := 6021,
    SSLListenerPort := 3307,
    DefaultDBDaemonPort := 3203,
    DefaultConfigAgentPort := 3202,
    DefaultMonitoringAgentPort := 9161,
    MonitoringAgentName := "oracle-monitoring",
    Monitoring := "Monitoring",
    GetSourceOracleBase := fun _ => "/u01/app/oracle",
    GetSourceOracleInventory := fun _ => "/u01/app/oracle/oraInventory",
    GetSourceOracleHome := fun version => "/u01/app/oracle/product/" ++ version ++ "/db" }

/-- A scheme in which the types `Instance` and `Backup` are registered. -/
def sampleScheme : Scheme :=
  [("Instance", { Group := "oracle.db.anthosapis.com", Version := "v1alpha1", Kind := "Instance" }),
   ("Backup", { Group := "oracle.db.anthosapis.com", Version := "v1alpha1", Kind := "Backup" })]

/-- A quantity parser for concrete runs: it knows "4.0Gi" and "8Gi" and fails on
every other string. -/
def sampleMustParse (str : String) : Option Quantity :=
  if str = "4.0Gi" then some { value := 4 * 2 ^ 30 }
  else if str = "8Gi" then some { value := 8 * 2 ^ 30 }
  else none

/-- A bundle with two disks and a restore request for backup "bkp7". -/
def sampleRestoreParams : StsParams :=
  { Inst := { Name := "orcl1", Namespace := "db" },
    Scheme := sampleScheme,
    Disks := [{ Name := "DataDisk" }, { Name := "LogDisk" }],
    Restore := some { BackupID := "bkp7" } }

/-- The second claim `NewPVCs` returns for `sampleRestoreParams`. -/
def sampleRestoredLogClaim : PersistentVolumeClaim :=
  { APIVersion := "v1", Kind := "PersistentVolumeClaim",
    Name := "orcl1-pvc-u03", Namespace := "db",
    AccessModes := ["ReadWriteOnce"],
    Requests := [("storage", { value := 150 * 2 ^ 30 })],
    StorageClassName := some "csi-gce-pd",
    DataSource := some
      { APIGroup := some "snapshot.storage.k8s.io", Kind := "VolumeSnapshot",
        Name := "bkp7-u03" } }

/-- A bundle with two disks for the instance "orcl1" in namespace "db", under a
given global config. -/
def sampleParams (config : Option Config) : StsParams :=
  { Inst := { Name := "orcl1", Namespace := "db" },
    Namespace := "db", StsName := "orcl1-sts",
    Scheme := sampleScheme,
    Images := [("service", "img/service"), ("dbinit", "img/dbinit"),
               ("logging_sidecar", "img/logging")],
    Disks := [{ Name := "DataDisk" }, { Name := "LogDisk" }],
    Config := config }

/-- The bundle `sampleParams none` with a disk list that has no "DataDisk" entry. -/
def sampleLogOnlyParams : StsParams :=
  { sampleParams none with Disks := [{ Name := "LogDisk" }] }

/-! ## Lemmas on the platform table -/

theorem getPlatformConfig_ok_iff (p : String) :
    (∃ pc, getPlatformConfig p = .ok pc) ↔ recognisedPlatform p := by
  unfold getPlatformConfig recognisedPlatform
  by_cases h1 : p = platformGCP
  · rw [if_pos h1]
    exact ⟨fun _ => Or.inl h1, fun _ => ⟨_, rfl⟩⟩
  · rw [if_neg h1]
    by_cases h2 : p = platformBareMetal
    · rw [if_pos h2]
      exact ⟨fun _ => Or.inr (Or.inl h2), fun _ => ⟨_, rfl⟩⟩
    · rw [if_neg h2]
      by_cases h3 : p = platformMinikube ∨ p = platformKind
      · rw [if_pos h3]
        exact ⟨fun _ => Or.inr (Or.inr h3), fun _ => ⟨_, rfl⟩⟩
      · rw [if_neg h3]
        constructor
        · rintro ⟨pc, hpc⟩
          cases hpc
        · rintro (h | h | h)
          · exact absurd h h1
          · exact absurd h h2
          · exact absurd h h3

theorem getPlatformConfig_error_of_not_recognised (p : String) (h : ¬ recognisedPlatform p) :
    getPlatformConfig p = .error (.unsupportedPlatform p) := by
  unfold recognisedPlatform at h
  unfold getPlatformConfig
  by_cases h1 : p = platformGCP
  · exact absurd (Or.inl h1) h
  · by_cases h2 : p = platformBareMetal
    · exact absurd (Or.inr (Or.inl h2)) h
    · by_cases h3 : p = platformMinikube ∨ p = platformKind
      · exact absurd (Or.inr (Or.inr h3)) h
      · simp [h1, h2, h3]

/-- What `ConfigAttribute` does once the explicit value is empty, in terms of
the effective platform. -/
theorem ConfigAttribute_empty (name : String) (config : Option Config) :
    ConfigAttribute name "" config =
      match getPlatformConfig (effectivePlatform config) with
      | .error err => ("", some err)
      | .ok gc =>
        if name = "StorageClass" then (gc.finalStorageClassName config, none)
        else if name = "VolumeSnapshotClass" then (gc.finalVolumeSnapshotClassName config, none)
        else ("", some (.unknownAttribute name)) := by
  unfold ConfigAttribute effectivePlatform
  cases config with
  | none => simp
  | some c =>
    by_cases hp : c.Spec.Platform = ""
    · simp [hp]
    · simp [hp]

/-! ## Claims on the attribute resolver -/

/-- C1: for every attribute name, every non-empty explicit value and every
global config (absent or present, whatever its platform), `ConfigAttribute`
returns exactly the explicit value and no error. -/
theorem ConfigAttribute_explicit (name explicitRequest : String) (config : Option Config)
    (h : explicitRequest ≠ "") :
    ConfigAttribute name explicitRequest config = (explicitRequest, none) := by
  simp [ConfigAttribute, h]

theorem ConfigAttribute_explicit_witness :
    ConfigAttribute "Colour" "fast-ssd" (some { Spec := { Platform := "Mars" } })
      = ("fast-ssd", none) :=
  ConfigAttribute_explicit "Colour" "fast-ssd" (some { Spec := { Platform := "Mars" } })
    (by decide)

/-- C4: `ConfigAttribute` returns an error if and only if the explicit value is
empty and either the effective platform is not one of GCP, BareMetal, Minikube,
Kind, or the name is neither "StorageClass" nor "VolumeSnapshotClass"; and
whenever it returns an error the returned value is the empty string. -/
theorem ConfigAttribute_error_iff (name explicitRequest : String) (config : Option Config) :
    ((ConfigAttribute name explicitRequest config).2 ≠ none ↔
      explicitRequest = "" ∧
        (¬ recognisedPlatform (effectivePlatform config) ∨
          (name ≠ "StorageClass" ∧ name ≠ "VolumeSnapshotClass"))) ∧
    ((ConfigAttribute name explicitRequest config).2 ≠ none →
      (ConfigAttribute name explicitRequest config).1 = "") := by
  by_cases he : explicitRequest = ""
  · subst he
    rw [ConfigAttribute_empty]
    by_cases hp : recognisedPlatform (effectivePlatform config)
    · obtain ⟨pc, hpc⟩ := (getPlatformConfig_ok_iff _).mpr hp
      rw [hpc]
      by_cases h1 : name = "StorageClass"
      · simp [h1, hp]
      · by_cases h2 : name = "VolumeSnapshotClass"
        · simp [h2, hp]
        · simp [h1, h2, hp]
    · rw [getPlatformConfig_error_of_not_recognised _ hp]
      simp [hp]
  · simp [ConfigAttribute, he]

/-- C5: for a config that is present, has a recognised or empty platform and
sets a non-empty override for the requested attribute, `ConfigAttribute` with
an empty explicit value returns that override (storage class for
"StorageClass", snapshot class for "VolumeSnapshotClass"), and with a non-empty
explicit value it returns the explicit value instead. -/
theorem ConfigAttribute_override (c : Config) (explicitRequest : String)
    (hp : c.Spec.Platform = "" ∨ recognisedPlatform c.Spec.Platform) :
    (c.Spec.StorageClass ≠ "" →
      ConfigAttribute "StorageClass" "" (some c) = (c.Spec.StorageClass, none) ∧
      (explicitRequest ≠ "" →
        ConfigAttribute "StorageClass" explicitRequest (some c) = (explicitRequest, none))) ∧
    (c.Spec.VolumeSnapshotClass ≠ "" →
      ConfigAttribute "VolumeSnapshotClass" "" (some c) = (c.Spec.VolumeSnapshotClass, none) ∧
      (explicitRequest ≠ "" →
        ConfigAttribute "VolumeSnapshotClass" explicitRequest (some c)
          = (explicitRequest, none))) := by
  have hrec : recognisedPlatform (effectivePlatform (some c)) := by
    unfold effectivePlatform
    rcases hp with hp | hp
    · simp [hp, recognisedPlatform]
    · by_cases he : c.Spec.Platform = ""
      · simp [he, recognisedPlatform]
      · simpa [he] using hp
  obtain ⟨pc, hpc⟩ := (getPlatformConfig_ok_iff _).mpr hrec
  refine ⟨fun _ => ⟨?_, fun he => ?_⟩, fun _ => ⟨?_, fun he => ?_⟩⟩
  · rw [ConfigAttribute_empty, hpc]
    simp [platformConfig.finalStorageClassName]
  · simp [ConfigAttribute, he]
  · rw [ConfigAttribute_empty, hpc]
    simp [platformConfig.finalVolumeSnapshotClassName]
  · simp [ConfigAttribute, he]

theorem ConfigAttribute_override_witness :
    ConfigAttribute "StorageClass" ""
        (some { Spec := { Platform := "Kind", StorageClass := "local-path",
                          VolumeSnapshotClass := "local-snap" } })
      = ("local-path", none) ∧
    ConfigAttribute "StorageClass" "fast-ssd"
        (some { Spec := { Platform := "Kind", StorageClass := "local-path",
                          VolumeSnapshotClass := "local-snap" } })
      = ("fast-ssd", none) ∧
    ConfigAttribute "VolumeSnapshotClass" ""
        (some { Spec := { Platform := "Kind", StorageClass := "local-path",
                          VolumeSnapshotClass := "local-snap" } })
      = ("local-snap", none) ∧
    ConfigAttribute "VolumeSnapshotClass" "fast-ssd"
        (some { Spec := { Platform := "Kind", StorageClass := "local-path",
                          VolumeSnapshotClass := "local-snap" } })
      = ("fast-ssd", none) :=
  have h := ConfigAttribute_override
    { Spec := { Platform := "Kind", StorageClass := "local-path",
                VolumeSnapshotClass := "local-snap" } }
    "fast-ssd" (Or.inr (by decide))
  ⟨(h.1 (by decide)).1, (h.1 (by decide)).2 (by decide),
   (h.2 (by decide)).1, (h.2 (by decide)).2 (by decide)⟩

/-- C6: with no global config and an empty explicit value, `ConfigAttribute`
falls back to the GCP entry: "csi-gce-pd" for "StorageClass" and
"csi-gce-pd-snapshot-class" for "VolumeSnapshotClass", both without error. -/
theorem ConfigAttribute_nil_config :
    ConfigAttribute "StorageClass" "" none = ("csi-gce-pd", none) ∧
    ConfigAttribute "VolumeSnapshotClass" "" none = ("csi-gce-pd-snapshot-class", none) := by
  decide

/-! ## Lemmas on the disk loops -/

theorem findDiskSize.scan_eq_none (diskName : String) (disks : List DiskSpec)
    (h : ∀ e ∈ disks, ¬ sizedFor diskName e) : findDiskSize.scan diskName disks = none := by
  induction disks with
  | nil => rfl
  | cons e rest ih =>
    have he : ¬ (e.Name = diskName ∧ ¬ e.Size.IsZero = true) := by
      have := h e (List.mem_cons_self e rest)
      simpa [sizedFor] using this
    rw [findDiskSize.scan, if_neg he]
    exact ih (fun x hx => h x (List.mem_cons_of_mem e hx))

theorem findDiskSize.scan_first (diskName : String) (pre post : List DiskSpec) (d : DiskSpec)
    (hd : sizedFor diskName d) (hpre : ∀ e ∈ pre, ¬ sizedFor diskName e) :
    findDiskSize.scan diskName (pre ++ d :: post) = some d.Size := by
  induction pre with
  | nil =>
    have hd2 : d.Name = diskName ∧ ¬ d.Size.IsZero = true := by
      simpa [sizedFor] using hd
    rw [List.nil_append, findDiskSize.scan, if_pos hd2]
  | cons e rest ih =>
    have he : ¬ (e.Name = diskName ∧ ¬ e.Size.IsZero = true) := by
      have := hpre e (List.mem_cons_self e rest)
      simpa [sizedFor] using this
    rw [List.cons_append, findDiskSize.scan, if_neg he]
    exact ih (fun x hx => hpre x (List.mem_cons_of_mem e hx))

/-! ## Claims on the disk sizing resolver -/

/-- C7, as stated, fails: for the name "ScratchDisk", absent from the built-in
table, an instance disk list with a "ScratchDisk" entry of size 5Gi does not
make `findDiskSize` return 5Gi; it returns the fallback 100Gi. -/
theorem findDiskSize_instance_size_not_returned :
    sizedFor "ScratchDisk" { Name := "ScratchDisk", Size := { value := 5 * 2 ^ 30 } } ∧
    findDiskSize
        [("DataDisk", { Name := "DataDisk", Size := { value := 100 * 2 ^ 30 } }),
         ("LogDisk", { Name := "LogDisk", Size := { value := 150 * 2 ^ 30 } })]
        "ScratchDisk"
        { Disks := [{ Name := "ScratchDisk", Size := { value := 5 * 2 ^ 30 } }] }
      = { value := 100 * 2 ^ 30 } ∧
    findDiskSize
        [("DataDisk", { Name := "DataDisk", Size := { value := 100 * 2 ^ 30 } }),
         ("LogDisk", { Name := "LogDisk", Size := { value := 150 * 2 ^ 30 } })]
        "ScratchDisk"
        { Disks := [{ Name := "ScratchDisk", Size := { value := 5 * 2 ^ 30 } }] }
      ≠ { value := 5 * 2 ^ 30 } := by
  decide

/-- C7, amended: for every logical disk name present in the built-in disk table
and every bundle whose instance disk list contains an entry with that name and
a non-zero size, `findDiskSize` returns the size of the first such entry,
whatever the global config and the table's default size are. -/
theorem findDiskSize_instance_first (defaultDiskSpecs : List (String × DiskSpec))
    (diskName : String) (sp : StsParams) (pre post : List DiskSpec) (d : DiskSpec)
    (htable : (defaultDiskSpecs.lookup diskName).isSome = true)
    (hdisks : sp.Disks = pre ++ d :: post)
    (hd : sizedFor diskName d)
    (hfirst : ∀ e ∈ pre, ¬ sizedFor diskName e) :
    findDiskSize defaultDiskSpecs diskName sp = d.Size := by
  obtain ⟨spec, hspec⟩ := Option.isSome_iff_exists.mp htable
  unfold findDiskSize
  rw [hspec, hdisks, findDiskSize.scan_first diskName pre post d hd hfirst]

theorem findDiskSize_instance_first_witness :
    findDiskSize
        [("DataDisk", { Name := "DataDisk", Size := { value := 100 * 2 ^ 30 } }),
         ("LogDisk", { Name := "LogDisk", Size := { value := 150 * 2 ^ 30 } })]
        "LogDisk"
        { Disks := [{ Name := "DataDisk", Size := { value := 7 * 2 ^ 30 } },
                    { Name := "LogDisk" },
                    { Name := "LogDisk", Size := { value := 20 * 2 ^ 30 } },
                    { Name := "LogDisk", Size := { value := 30 * 2 ^ 30 } }],
          Config := some { Spec := { Disks :=
            [{ Name := "LogDisk", Size := { value := 40 * 2 ^ 30 } }] } } }
      = { value := 20 * 2 ^ 30 } :=
  findDiskSize_instance_first
    [("DataDisk", { Name := "DataDisk", Size := { value := 100 * 2 ^ 30 } }),
     ("LogDisk", { Name := "LogDisk", Size := { value := 150 * 2 ^ 30 } })]
    "LogDisk"
    { Disks := [{ Name := "DataDisk", Size := { value := 7 * 2 ^ 30 } },
                { Name := "LogDisk" },
                { Name := "LogDisk", Size := { value := 20 * 2 ^ 30 } },
                { Name := "LogDisk", Size := { value := 30 * 2 ^ 30 } }],
      Config := some { Spec := { Disks :=
        [{ Name := "LogDisk", Size := { value := 40 * 2 ^ 30 } }] } } }
    [{ Name := "DataDisk", Size := { value := 7 * 2 ^ 30 } }, { Name := "LogDisk" }]
    [{ Name := "LogDisk", Size := { value := 30 * 2 ^ 30 } }]
    { Name := "LogDisk", Size := { value := 20 * 2 ^ 30 } }
    (by decide) rfl (by decide) (by decide)

/-- C8: for every logical disk name present in the built-in disk table, when the
instance disk list has no entry with that name and a non-zero size,
`findDiskSize` returns the size of the first entry with that name and a
non-zero size in the global config's disk list if a config is present and has
one, and otherwise (no config, or a config without such an entry) the table's
default size for that name. -/
theorem findDiskSize_config_then_table (defaultDiskSpecs : List (String × DiskSpec))
    (diskName : String) (sp : StsParams) (spec : DiskSpec)
    (htable : defaultDiskSpecs.lookup diskName = some spec)
    (hinst : ∀ e ∈ sp.Disks, ¬ sizedFor diskName e) :
    (∀ (c : Config) (pre post : List DiskSpec) (d : DiskSpec),
      sp.Config = some c → c.Spec.Disks = pre ++ d :: post → sizedFor diskName d →
      (∀ e ∈ pre, ¬ sizedFor diskName e) →
      findDiskSize defaultDiskSpecs diskName sp = d.Size) ∧
    ((∀ c, sp.Config = some c → ∀ e ∈ c.Spec.Disks, ¬ sizedFor diskName e) →
      findDiskSize defaultDiskSpecs diskName sp = spec.Size) := by
  have hscan := findDiskSize.scan_eq_none diskName sp.Disks hinst
  constructor
  · intro c pre post d hc hdisks hd hfirst
    unfold findDiskSize
    rw [htable, hscan, hc]
    simp only
    rw [hdisks, findDiskSize.scan_first diskName pre post d hd hfirst]
  · intro hnone
    unfold findDiskSize
    rw [htable, hscan]
    cases hc : sp.Config with
    | none => rfl
    | some c =>
      simp only
      rw [findDiskSize.scan_eq_none diskName c.Spec.Disks (hnone c hc)]

theorem findDiskSize_config_then_table_witness :
    findDiskSize sampleDiskSpecs "LogDisk"
        { Disks := [{ Name := "DataDisk", Size := { value := 7 * 2 ^ 30 } }, { Name := "LogDisk" }],
          Config := some { Spec := { Disks :=
            [{ Name := "LogDisk" }, { Name := "LogDisk", Size := { value := 40 * 2 ^ 30 } },
             { Name := "LogDisk", Size := { value := 50 * 2 ^ 30 } }] } } }
      = { value := 40 * 2 ^ 30 } ∧
    findDiskSize sampleDiskSpecs "LogDisk"
        { Disks := [{ Name := "DataDisk", Size := { value := 7 * 2 ^ 30 } }, { Name := "LogDisk" }],
          Config := some { Spec := { Disks :=
            [{ Name := "DataDisk", Size := { value := 40 * 2 ^ 30 } }] } } }
      = { value := 150 * 2 ^ 30 } ∧
    findDiskSize sampleDiskSpecs "LogDisk"
        { Disks := [{ Name := "DataDisk", Size := { value := 7 * 2 ^ 30 } }, { Name := "LogDisk" }] }
      = { value := 150 * 2 ^ 30 } :=
  ⟨(findDiskSize_config_then_table sampleDiskSpecs "LogDisk"
      { Disks := [{ Name := "DataDisk", Size := { value := 7 * 2 ^ 30 } }, { Name := "LogDisk" }],
        Config := some { Spec := { Disks :=
          [{ Name := "LogDisk" }, { Name := "LogDisk", Size := { value := 40 * 2 ^ 30 } },
           { Name := "LogDisk", Size := { value := 50 * 2 ^ 30 } }] } } }
      { Name := "LogDisk", Size := { value := 150 * 2 ^ 30 } } rfl (by decide)).1
      _ [{ Name := "LogDisk" }] [{ Name := "LogDisk", Size := { value := 50 * 2 ^ 30 } }]
      { Name := "LogDisk", Size := { value := 40 * 2 ^ 30 } } rfl rfl (by decide) (by decide),
   (findDiskSize_config_then_table sampleDiskSpecs "LogDisk"
      { Disks := [{ Name := "DataDisk", Size := { value := 7 * 2 ^ 30 } }, { Name := "LogDisk" }],
        Config := some { Spec := { Disks :=
          [{ Name := "DataDisk", Size := { value := 40 * 2 ^ 30 } }] } } }
      { Name := "LogDisk", Size := { value := 150 * 2 ^ 30 } } rfl (by decide)).2
      (fun c hc => by
        cases hc
        decide),
   (findDiskSize_config_then_table sampleDiskSpecs "LogDisk"
      { Disks := [{ Name := "DataDisk", Size := { value := 7 * 2 ^ 30 } }, { Name := "LogDisk" }] }
      { Name := "LogDisk", Size := { value := 150 * 2 ^ 30 } } rfl (by decide)).2
      (fun c hc => by cases hc)⟩

/-- C9: for every logical disk name that is absent from the built-in disk table,
`findDiskSize` returns the fixed fallback capacity 100Gi (`defaultDiskSize`),
whatever the bundle holds; being a total function with no error result, it
never fails. -/
theorem findDiskSize_unknown_name (defaultDiskSpecs : List (String × DiskSpec))
    (diskName : String) (sp : StsParams)
    (habsent : defaultDiskSpecs.lookup diskName = none) :
    findDiskSize defaultDiskSpecs diskName sp = defaultDiskSize ∧
      defaultDiskSize = { value := 100 * 2 ^ 30, scale := 0 } := by
  unfold findDiskSize
  rw [habsent]
  exact ⟨rfl, rfl⟩

theorem findDiskSize_unknown_name_witness :
    findDiskSize sampleDiskSpecs "TempDisk"
        { Disks := [{ Name := "TempDisk", Size := { value := 2 * 2 ^ 30 } }],
          Config := some { Spec := { Disks :=
            [{ Name := "TempDisk", Size := { value := 3 * 2 ^ 30 } }] } } }
      = { value := 107374182400, scale := 0 } :=
  (findDiskSize_unknown_name sampleDiskSpecs "TempDisk"
    { Disks := [{ Name := "TempDisk", Size := { value := 2 * 2 ^ 30 } }],
      Config := some { Spec := { Disks :=
        [{ Name := "TempDisk", Size := { value := 3 * 2 ^ 30 } }] } } }
    (by decide)).1

/-! ## Claims on the storage resource builder -/

theorem NewPVCs.loop_error (defaultDiskSpecs : List (String × DiskSpec))
    (GetPVCNameAndMount : String → String → String × String) (sp : StsParams)
    (disks : List DiskSpec) (pvcs : List PersistentVolumeClaim) :
    ((NewPVCs.loop defaultDiskSpecs GetPVCNameAndMount sp disks pvcs).2 ≠ none ↔
      ∃ d ∈ disks, storageClassUnresolved sp.Config d) ∧
    ((NewPVCs.loop defaultDiskSpecs GetPVCNameAndMount sp disks pvcs).2 ≠ none →
      (NewPVCs.loop defaultDiskSpecs GetPVCNameAndMount sp disks pvcs).1 = []) := by
  induction disks generalizing pvcs with
  | nil => simp [NewPVCs.loop]
  | cons diskSpec rest ih =>
    by_cases hbad : storageClassUnresolved sp.Config diskSpec
    · have hbad2 := hbad
      unfold storageClassUnresolved at hbad2
      rw [NewPVCs.loop]
      simp only [if_pos hbad2]
      exact ⟨⟨fun _ => ⟨diskSpec, List.mem_cons_self _ _, hbad⟩, fun _ => by simp⟩,
        fun _ => trivial⟩
    · have hbad2 := hbad
      unfold storageClassUnresolved at hbad2
      rw [NewPVCs.loop]
      simp only [if_neg hbad2]
      refine ⟨?_, (ih _).2⟩
      rw [(ih _).1]
      constructor
      · rintro ⟨d, hd, hdbad⟩
        exact ⟨d, List.mem_cons_of_mem _ hd, hdbad⟩
      · rintro ⟨d, hd, hdbad⟩
        rcases List.mem_cons.mp hd with rfl | hd
        · exact absurd hdbad hbad
        · exact ⟨d, hd, hdbad⟩

/-- C10: `NewPVCs` returns an error if and only if, for some disk of the disk
list, `ConfigAttribute "StorageClass"` called with that disk's storage class
and the config returns an error or an empty value; and whenever it returns an
error it returns no claims at all, also when earlier disks resolved. -/
theorem NewPVCs_error_iff (defaultDiskSpecs : List (String × DiskSpec))
    (GetPVCNameAndMount : String → String → String × String) (sp : StsParams) :
    ((NewPVCs defaultDiskSpecs GetPVCNameAndMount sp).2 ≠ none ↔
      ∃ d ∈ sp.Disks,
        (ConfigAttribute "StorageClass" d.StorageClass sp.Config).2 ≠ none ∨
          (ConfigAttribute "StorageClass" d.StorageClass sp.Config).1 = "") ∧
    ((NewPVCs defaultDiskSpecs GetPVCNameAndMount sp).2 ≠ none →
      (NewPVCs defaultDiskSpecs GetPVCNameAndMount sp).1 = []) :=
  NewPVCs.loop_error defaultDiskSpecs GetPVCNameAndMount sp sp.Disks []

/-- A run of `NewPVCs` on two disks, the first with an explicit storage class and
the second with none, under a config that names the platform Kind and sets no
storage class: the second disk fails and the claim built for the first is not
returned. -/
theorem NewPVCs_aborts_after_first_disk :
    NewPVCs sampleDiskSpecs sampleGetPVCNameAndMount
        { Inst := { Name := "orcl1", Namespace := "db" },
          Disks := [{ Name := "DataDisk", StorageClass := "fast-ssd" }, { Name := "LogDisk" }],
          Config := some { Spec := { Platform := "Kind" } } }
      = ([], some (.storageClassNotIdentified "LogDisk")) := by
  decide

/-- A run of `NewPVCs` with no global config: both disks resolve, the second to
the GCP default. -/
theorem NewPVCs_two_disks :
    NewPVCs sampleDiskSpecs sampleGetPVCNameAndMount
        { Inst := { Name := "orcl1", Namespace := "db" },
          Disks := [{ Name := "DataDisk", StorageClass := "fast-ssd" }, { Name := "LogDisk" }] }
      = ([{ APIVersion := "v1", Kind := "PersistentVolumeClaim",
            Name := "orcl1-pvc-u02", Namespace := "db",
            AccessModes := ["ReadWriteOnce"],
            Requests := [("storage", { value := 100 * 2 ^ 30 })],
            StorageClassName := some "fast-ssd", DataSource := none },
          { APIVersion := "v1", Kind := "PersistentVolumeClaim",
            Name := "orcl1-pvc-u03", Namespace := "db",
            AccessModes := ["ReadWriteOnce"],
            Requests := [("storage", { value := 150 * 2 ^ 30 })],
            StorageClassName := some "csi-gce-pd", DataSource := none }],
         none) := by
  decide

/-! ## Lemmas on the loop of `NewPVCs` -/

theorem NewPVCs.loop_cons_ok (defaultDiskSpecs : List (String × DiskSpec))
    (GetPVCNameAndMount : String → String → String × String) (sp : StsParams)
    (d : DiskSpec) (rest : List DiskSpec) (pvcs : List PersistentVolumeClaim)
    (hd : ¬ storageClassUnresolved sp.Config d) :
    NewPVCs.loop defaultDiskSpecs GetPVCNameAndMount sp (d :: rest) pvcs =
      NewPVCs.loop defaultDiskSpecs GetPVCNameAndMount sp rest
        (pvcs ++ [claimFor defaultDiskSpecs GetPVCNameAndMount sp d]) := by
  unfold storageClassUnresolved at hd
  rw [NewPVCs.loop]
  simp only [if_neg hd]
  congr 2
  unfold claimFor
  cases hr : sp.Restore with
  | none => rfl
  | some r =>
    by_cases hb : r.BackupID = ""
    · simp [hb]
    · simp [hb]

theorem NewPVCs.loop_ok (defaultDiskSpecs : List (String × DiskSpec))
    (GetPVCNameAndMount : String → String → String × String) (sp : StsParams)
    (disks : List DiskSpec) (pvcs : List PersistentVolumeClaim)
    (h : (NewPVCs.loop defaultDiskSpecs GetPVCNameAndMount sp disks pvcs).2 = none) :
    (NewPVCs.loop defaultDiskSpecs GetPVCNameAndMount sp disks pvcs).1 =
        pvcs ++ disks.map (claimFor defaultDiskSpecs GetPVCNameAndMount sp) ∧
      ∀ d ∈ disks, ¬ storageClassUnresolved sp.Config d := by
  induction disks generalizing pvcs with
  | nil => simp [NewPVCs.loop]
  | cons d rest ih =>
    by_cases hd : storageClassUnresolved sp.Config d
    · exact absurd h
        ((NewPVCs.loop_error defaultDiskSpecs GetPVCNameAndMount sp (d :: rest) pvcs).1.mpr
          ⟨d, List.mem_cons_self _ _, hd⟩)
    · rw [NewPVCs.loop_cons_ok defaultDiskSpecs GetPVCNameAndMount sp d rest pvcs hd] at h ⊢
      obtain ⟨h1, h2⟩ := ih _ h
      refine ⟨by rw [h1]; simp, ?_⟩
      intro e he
      rcases List.mem_cons.mp he with rfl | he
      · exact hd
      · exact h2 e he

/-- What `NewPVCs` returns, in every case: the claims of all disks, or nothing. -/
theorem NewPVCs_eq (defaultDiskSpecs : List (String × DiskSpec))
    (GetPVCNameAndMount : String → String → String × String) (sp : StsParams) :
    ((NewPVCs defaultDiskSpecs GetPVCNameAndMount sp).2 = none ∧
      (NewPVCs defaultDiskSpecs GetPVCNameAndMount sp).1 =
        sp.Disks.map (claimFor defaultDiskSpecs GetPVCNameAndMount sp) ∧
      ∀ d ∈ sp.Disks, ¬ storageClassUnresolved sp.Config d) ∨
    ((NewPVCs defaultDiskSpecs GetPVCNameAndMount sp).2 ≠ none ∧
      (NewPVCs defaultDiskSpecs GetPVCNameAndMount sp).1 = []) := by
  by_cases h : (NewPVCs defaultDiskSpecs GetPVCNameAndMount sp).2 = none
  · left
    have := NewPVCs.loop_ok defaultDiskSpecs GetPVCNameAndMount sp sp.Disks [] h
    exact ⟨h, by simpa [NewPVCs] using this.1, this.2⟩
  · right
    exact ⟨h, (NewPVCs.loop_error defaultDiskSpecs GetPVCNameAndMount sp sp.Disks []).2 h⟩

/-- C11: whenever `NewPVCs` succeeds it returns one claim per entry of the disk
list, in the order of the disk list, and the claim at position `i` is built
from the disk at position `i`: its name is the claim name of
`GetPVCNameAndMount` for the instance name and the disk name, its namespace the
instance's, its requested storage `findDiskSize` of the disk name, its storage
class the non-empty value `ConfigAttribute` resolved for the disk ("csi-gce-pd"
with no global config and no explicit class), its access modes
`["ReadWriteOnce"]`. -/
theorem NewPVCs_claims (defaultDiskSpecs : List (String × DiskSpec))
    (GetPVCNameAndMount : String → String → String × String) (sp : StsParams)
    (hok : (NewPVCs defaultDiskSpecs GetPVCNameAndMount sp).2 = none) :
    (NewPVCs defaultDiskSpecs GetPVCNameAndMount sp).1.length = sp.Disks.length ∧
    ∀ (i : Nat) (d : DiskSpec), sp.Disks[i]? = some d →
      ∃ pvc, (NewPVCs defaultDiskSpecs GetPVCNameAndMount sp).1[i]? = some pvc ∧
        pvc.Name = (GetPVCNameAndMount sp.Inst.Name d.Name).1 ∧
        pvc.Namespace = sp.Inst.Namespace ∧
        pvc.Requests = [(ResourceStorage, findDiskSize defaultDiskSpecs d.Name sp)] ∧
        pvc.StorageClassName =
          some (ConfigAttribute "StorageClass" d.StorageClass sp.Config).1 ∧
        (ConfigAttribute "StorageClass" d.StorageClass sp.Config).1 ≠ "" ∧
        (ConfigAttribute "StorageClass" d.StorageClass sp.Config).2 = none ∧
        (sp.Config = none → d.StorageClass = "" → pvc.StorageClassName = some "csi-gce-pd") ∧
        pvc.AccessModes = ["ReadWriteOnce"] := by
  rcases NewPVCs_eq defaultDiskSpecs GetPVCNameAndMount sp with ⟨_, h1, h2⟩ | ⟨hne, _⟩
  · rw [h1]
    refine ⟨List.length_map _ _, ?_⟩
    intro i d hd
    have hres := h2 d (List.getElem?_mem hd)
    unfold storageClassUnresolved at hres
    rw [not_or, not_not] at hres
    refine ⟨claimFor defaultDiskSpecs GetPVCNameAndMount sp d, ?_, rfl, rfl, rfl, rfl,
      hres.2, hres.1, ?_, rfl⟩
    · rw [List.getElem?_map, hd]
      rfl
    · intro hc hs
      show some (ConfigAttribute "StorageClass" d.StorageClass sp.Config).1 = some "csi-gce-pd"
      rw [hc, hs]
      rfl
  · exact absurd hok hne

theorem NewPVCs_claims_witness :
    (NewPVCs sampleDiskSpecs sampleGetPVCNameAndMount
        { Inst := { Name := "orcl1", Namespace := "db" },
          Disks := [{ Name := "DataDisk" },
                    { Name := "LogDisk", Size := { value := 20 * 2 ^ 30 },
                      StorageClass := "fast-ssd" }] }).1.length = 2 ∧
    (∃ pvc,
      (NewPVCs sampleDiskSpecs sampleGetPVCNameAndMount
        { Inst := { Name := "orcl1", Namespace := "db" },
          Disks := [{ Name := "DataDisk" },
                    { Name := "LogDisk", Size := { value := 20 * 2 ^ 30 },
                      StorageClass := "fast-ssd" }] }).1[0]? = some pvc ∧
      pvc.Name = "orcl1-pvc-u02" ∧ pvc.Namespace = "db" ∧
      pvc.Requests = [("storage", { value := 100 * 2 ^ 30 })] ∧
      pvc.StorageClassName = some "csi-gce-pd" ∧ pvc.AccessModes = ["ReadWriteOnce"]) ∧
    (∃ pvc,
      (NewPVCs sampleDiskSpecs sampleGetPVCNameAndMount
        { Inst := { Name := "orcl1", Namespace := "db" },
          Disks := [{ Name := "DataDisk" },
                    { Name := "LogDisk", Size := { value := 20 * 2 ^ 30 },
                      StorageClass := "fast-ssd" }] }).1[1]? = some pvc ∧
      pvc.Name = "orcl1-pvc-u03" ∧ pvc.Namespace = "db" ∧
      pvc.Requests = [("storage", { value := 20 * 2 ^ 30 })] ∧
      pvc.StorageClassName = some "fast-ssd" ∧ pvc.AccessModes = ["ReadWriteOnce"]) :=
  have h := NewPVCs_claims sampleDiskSpecs sampleGetPVCNameAndMount
    { Inst := { Name := "orcl1", Namespace := "db" },
      Disks := [{ Name := "DataDisk" },
                { Name := "LogDisk", Size := { value := 20 * 2 ^ 30 },
                  StorageClass := "fast-ssd" }] }
    (by decide)
  ⟨h.1,
   (h.2 0 { Name := "DataDisk" } rfl).imp
     (fun _ hp => ⟨hp.1, hp.2.1, hp.2.2.1, hp.2.2.2.1, hp.2.2.2.2.2.2.2.1 rfl rfl,
       hp.2.2.2.2.2.2.2.2⟩),
   (h.2 1 { Name := "LogDisk", Size := { value := 20 * 2 ^ 30 }, StorageClass := "fast-ssd" }
      rfl).imp
     (fun _ hp => ⟨hp.1, hp.2.1, hp.2.2.1, hp.2.2.2.1, hp.2.2.2.2.1, hp.2.2.2.2.2.2.2.2⟩)⟩

/-- C12: every claim `NewPVCs` returns stands at the position of a disk of the
disk list, and it has a data source if and only if a restore request is present
with a non-empty backup id; the data source is then a `VolumeSnapshot`
reference of API group snapshot.storage.k8s.io named by the backup id, a hyphen
and the mount name `GetPVCNameAndMount` gives for that disk; with no restore
request, or one with an empty backup id, the data source is unset. -/
theorem NewPVCs_dataSource (defaultDiskSpecs : List (String × DiskSpec))
    (GetPVCNameAndMount : String → String → String × String) (sp : StsParams)
    (i : Nat) (pvc : PersistentVolumeClaim)
    (hpvc : (NewPVCs defaultDiskSpecs GetPVCNameAndMount sp).1[i]? = some pvc) :
    ∃ d, sp.Disks[i]? = some d ∧
      (pvc.DataSource ≠ none ↔ ∃ r, sp.Restore = some r ∧ r.BackupID ≠ "") ∧
      (∀ r, sp.Restore = some r → r.BackupID ≠ "" →
        pvc.DataSource = some
          { APIGroup := some "snapshot.storage.k8s.io", Kind := "VolumeSnapshot",
            Name := r.BackupID ++ "-" ++ (GetPVCNameAndMount sp.Inst.Name d.Name).2 }) ∧
      ((sp.Restore = none ∨ ∃ r, sp.Restore = some r ∧ r.BackupID = "") →
        pvc.DataSource = none) := by
  rcases NewPVCs_eq defaultDiskSpecs GetPVCNameAndMount sp with ⟨_, h1, _⟩ | ⟨_, hnil⟩
  · rw [h1, List.getElem?_map] at hpvc
    cases hd : sp.Disks[i]? with
    | none => rw [hd] at hpvc; cases hpvc
    | some d =>
      rw [hd] at hpvc
      have hp : pvc = claimFor defaultDiskSpecs GetPVCNameAndMount sp d := by
        simpa using hpvc.symm
      subst hp
      refine ⟨d, rfl, ?_, ?_, ?_⟩
      · unfold claimFor
        cases hr : sp.Restore with
        | none => simp
        | some r =>
          by_cases hb : r.BackupID = ""
          · simp [hb]
          · simp [hb]
      · intro r hr hb
        unfold claimFor
        simp [hr, hb]
      · rintro (hr | ⟨r, hr, hb⟩)
        · unfold claimFor
          simp [hr]
        · unfold claimFor
          simp [hr, hb]
  · rw [hnil] at hpvc
    cases hpvc

theorem NewPVCs_dataSource_witness :
    (NewPVCs sampleDiskSpecs sampleGetPVCNameAndMount sampleRestoreParams).1[1]?
      = some sampleRestoredLogClaim ∧
    ∃ d, sampleRestoreParams.Disks[1]? = some d ∧
      (sampleRestoredLogClaim.DataSource ≠ none ↔
        ∃ r, sampleRestoreParams.Restore = some r ∧ r.BackupID ≠ "") ∧
      (∀ r, sampleRestoreParams.Restore = some r → r.BackupID ≠ "" →
        sampleRestoredLogClaim.DataSource = some
          { APIGroup := some "snapshot.storage.k8s.io", Kind := "VolumeSnapshot",
            Name := r.BackupID ++ "-" ++
              (sampleGetPVCNameAndMount sampleRestoreParams.Inst.Name d.Name).2 }) ∧
      ((sampleRestoreParams.Restore = none ∨
          ∃ r, sampleRestoreParams.Restore = some r ∧ r.BackupID = "") →
        sampleRestoredLogClaim.DataSource = none) :=
  ⟨by decide,
   NewPVCs_dataSource sampleDiskSpecs sampleGetPVCNameAndMount sampleRestoreParams 1
     sampleRestoredLogClaim (by decide)⟩

/-! ## Claims on the endpoint address -/

/-- C13, as stated, fails for an IPv6 address: with the single ingress entry
"2001:db8::1" (no hostname) and port 1521, `SvcURL` returns
"[2001:db8::1]:1521", not the address followed by ":" and the port. -/
theorem SvcURL_ipv6_bracketed :
    SvcURL { Ingress := [{ IP := "2001:db8::1" }] } 1521 = "[2001:db8::1]:1521" ∧
    SvcURL { Ingress := [{ IP := "2001:db8::1" }] } 1521
      ≠ "2001:db8::1" ++ ":" ++ toString (1521 : Int) := by
  decide

/-- C13, amended: for every service whose first ingress entry has an empty
hostname and the address `a`, and every port, `SvcURL` returns `a`, ":" and the
decimal form of the port when `a` contains no colon (an IPv4 address), and "[",
`a`, "]:" and the decimal form of the port when `a` contains a colon (an IPv6
address). -/
theorem SvcURL_numeric_address (svc : Service) (first : LoadBalancerIngress)
    (rest : List LoadBalancerIngress) (a : String) (port : Int)
    (hingress : svc.Ingress = first :: rest) (hhost : first.Hostname = "")
    (hip : first.IP = a) :
    (':' ∉ a.toList → SvcURL svc port = a ++ ":" ++ toString port) ∧
    (':' ∈ a.toList → SvcURL svc port = "[" ++ a ++ "]:" ++ toString port) := by
  unfold SvcURL
  rw [hingress]
  simp only [hhost, if_true, hip]
  unfold JoinHostPort
  exact ⟨fun h => by rw [if_neg h], fun h => by rw [if_pos h]⟩

theorem SvcURL_numeric_address_witness :
    SvcURL { Ingress := [{ IP := "10.128.0.7" }, { Hostname := "db.example.com" }] } 6021
      = "10.128.0.7:6021" ∧
    SvcURL { Ingress := [{ IP := "fd00::7" }] } 6021 = "[fd00::7]:6021" :=
  ⟨(SvcURL_numeric_address
      { Ingress := [{ IP := "10.128.0.7" }, { Hostname := "db.example.com" }] }
      { IP := "10.128.0.7" } [{ Hostname := "db.example.com" }] "10.128.0.7" 6021
      rfl rfl rfl).1 (by decide),
   (SvcURL_numeric_address { Ingress := [{ IP := "fd00::7" }] }
      { IP := "fd00::7" } [] "fd00::7" 6021 rfl rfl rfl).2 (by decide)⟩

/-- C14: `SvcURL` returns the empty string when the service has no ingress
entries; when it has at least one, the result is built from the first entry and
the port only: the host is the entry's hostname whenever that is non-empty
(whatever its IP) and its IP only when the hostname is empty, and the result is
the host, ":" and the decimal form of the port, the host standing in square
brackets when it contains a colon; the other entries are not read. -/
theorem SvcURL_first_entry (svc : Service) (port : Int) :
    (svc.Ingress = [] → SvcURL svc port = "") ∧
    (∀ first rest, svc.Ingress = first :: rest →
      (first.Hostname ≠ "" →
        SvcURL svc port =
          if ':' ∈ first.Hostname.toList then "[" ++ first.Hostname ++ "]:" ++ toString port
          else first.Hostname ++ ":" ++ toString port) ∧
      (first.Hostname = "" →
        SvcURL svc port =
          if ':' ∈ first.IP.toList then "[" ++ first.IP ++ "]:" ++ toString port
          else first.IP ++ ":" ++ toString port)) := by
  unfold SvcURL JoinHostPort
  constructor
  · intro h
    rw [h]
  · intro first rest h
    rw [h]
    exact ⟨fun hh => by simp only [if_neg hh], fun hh => by simp only [if_pos hh]⟩

theorem SvcURL_first_entry_witness :
    SvcURL {} 6021 = "" ∧
    SvcURL { Ingress := [{ IP := "10.128.0.7", Hostname := "db.example.com" },
                         { IP := "10.128.0.9", Hostname := "other.example.com" }] } 6021
      = "db.example.com:6021" ∧
    SvcURL { Ingress := [{ IP := "10.128.0.7" }, { Hostname := "other.example.com" }] } 6021
      = "10.128.0.7:6021" :=
  ⟨(SvcURL_first_entry {} 6021).1 rfl,
   (((SvcURL_first_entry
        { Ingress := [{ IP := "10.128.0.7", Hostname := "db.example.com" },
                      { IP := "10.128.0.9", Hostname := "other.example.com" }] } 6021).2
      { IP := "10.128.0.7", Hostname := "db.example.com" }
      [{ IP := "10.128.0.9", Hostname := "other.example.com" }] rfl).1 (by decide)).trans
     (by decide),
   (((SvcURL_first_entry
        { Ingress := [{ IP := "10.128.0.7" }, { Hostname := "other.example.com" }] } 6021).2
      { IP := "10.128.0.7" } [{ Hostname := "other.example.com" }] rfl).2 rfl).trans
     (by decide)⟩

/-- Runs of `SvcURL`: no ingress entry; a first entry with both hostname and IP;
a second entry is not read. -/
theorem SvcURL_runs :
    SvcURL {} 6021 = "" ∧
    SvcURL { Ingress := [{ IP := "10.128.0.7", Hostname := "db.example.com" }] } 6021
      = "db.example.com:6021" ∧
    SvcURL { Ingress := [{ IP := "10.128.0.7" }, { Hostname := "db.example.com" }] } 6021
      = "10.128.0.7:6021" := by
  decide

/-! ## Claims on the network resource builder -/

/-- C16, as stated, fails: called with the package-level list at its initial
value ["0.0.0.0/0"] and an instance whose source CIDR ranges are
["10.0.0.0/8"], `NewSvc` leaves the package-level list at ["10.0.0.0/8"]. -/
theorem NewSvc_overwrites_sourceCidrRanges :
    (NewSvc sampleExternal sourceCidrRanges
        { Name := "orcl1", Namespace := "db", Spec := { SourceCidrRanges := ["10.0.0.0/8"] } }
        sampleScheme "").1 = ["10.0.0.0/8"] ∧
    (NewSvc sampleExternal sourceCidrRanges
        { Name := "orcl1", Namespace := "db", Spec := { SourceCidrRanges := ["10.0.0.0/8"] } }
        sampleScheme "").1 ≠ sourceCidrRanges := by
  decide

/-- C16, amended: a call of `NewSvc` leaves the package-level source CIDR list
as it was when the instance's source CIDR list is empty, and sets it to the
instance's list when that is non-empty; the service and the error it returns do
not depend on the value the package-level list had before the call. -/
theorem NewSvc_sourceCidrRanges (k : External) (before : List String) (inst : Instance)
    (scheme : Scheme) (lb : String) :
    (inst.Spec.SourceCidrRanges = [] → (NewSvc k before inst scheme lb).1 = before) ∧
    (inst.Spec.SourceCidrRanges ≠ [] →
      (NewSvc k before inst scheme lb).1 = inst.Spec.SourceCidrRanges) ∧
    (∀ other, (NewSvc k other inst scheme lb).2 = (NewSvc k before inst scheme lb).2) := by
  have hfst : ∀ g, (NewSvc k g inst scheme lb).1 =
      if inst.Spec.SourceCidrRanges.length > 0 then inst.Spec.SourceCidrRanges else g := by
    intro g
    unfold NewSvc
    simp only
    split <;> rfl
  have hsnd : ∀ g h, (NewSvc k g inst scheme lb).2 = (NewSvc k h inst scheme lb).2 := by
    intro g h
    unfold NewSvc
    simp only
    split <;> rfl
  refine ⟨fun h => ?_, fun h => ?_, fun other => hsnd other before⟩
  · rw [hfst, h]
    rfl
  · rw [hfst, if_pos (List.length_pos.mpr h)]

/-- C19: for every instance and exposure flag, the service `NewSvc` builds has
type NodePort and the base service name followed by "-node" exactly when the
flag is "node", and otherwise type LoadBalancer and the base name; it carries
the internal-load-balancer annotation exactly when the flag is not "node" and
the instance's network options set the GCP load-balancer type to "Internal"
(and no annotation otherwise); in every case its ports are the secure-listener
and the SSL-listener port, in that order, and its selector is the instance
name under the key "instance". -/
theorem NewSvc_shape (k : External) (before : List String) (inst : Instance)
    (scheme : Scheme) (lb : String) :
    ((NewSvc k before inst scheme lb).2.1.Type_ = "NodePort" ↔ lb = "node") ∧
    ((NewSvc k before inst scheme lb).2.1.Type_ = "LoadBalancer" ↔ lb ≠ "node") ∧
    (lb = "node" → (NewSvc k before inst scheme lb).2.1.Name = k.SvcName inst.Name ++ "-node") ∧
    (lb ≠ "node" → (NewSvc k before inst scheme lb).2.1.Name = k.SvcName inst.Name) ∧
    ((NewSvc k before inst scheme lb).2.1.Annotations
        = [("cloud.google.com/load-balancer-type", "Internal")] ↔
      lb ≠ "node" ∧ ∃ networkOpts, inst.Spec.DBNetworkServiceOptions = some networkOpts ∧
        networkOpts.GCP.LoadBalancerType = "Internal") ∧
    ((NewSvc k before inst scheme lb).2.1.Annotations = [] ↔
      ¬ (lb ≠ "node" ∧ ∃ networkOpts, inst.Spec.DBNetworkServiceOptions = some networkOpts ∧
        networkOpts.GCP.LoadBalancerType = "Internal")) ∧
    (NewSvc k before inst scheme lb).2.1.Ports =
      [{ Name := "secure-listener", Protocol := "TCP", Port := k.SecureListenerPort,
         TargetPort := k.SecureListenerPort },
       { Name := "ssl-listener", Protocol := "TCP", Port := k.SSLListenerPort,
         TargetPort := k.SSLListenerPort }] ∧
    (NewSvc k before inst scheme lb).2.1.Selector = [("instance", inst.Name)] := by
  have hT : (NewSvc k before inst scheme lb).2.1.Type_ =
      if lb = "node" then "NodePort" else "LoadBalancer" := by
    unfold NewSvc
    simp only
    split <;> rfl
  have hN : (NewSvc k before inst scheme lb).2.1.Name =
      if lb = "node" then k.SvcName inst.Name ++ "-" ++ lb else k.SvcName inst.Name := by
    unfold NewSvc
    simp only
    split <;> rfl
  have hA : (NewSvc k before inst scheme lb).2.1.Annotations =
      if lb = "node" then []
      else
        match inst.Spec.DBNetworkServiceOptions with
        | some networkOpts =>
          if networkOpts.GCP.LoadBalancerType = "Internal" then
            [("cloud.google.com/load-balancer-type", "Internal")]
          else []
        | none => [] := by
    unfold NewSvc
    simp only
    split <;> rfl
  have hP : (NewSvc k before inst scheme lb).2.1.Ports =
      [{ Name := "secure-listener", Protocol := "TCP", Port := k.SecureListenerPort,
         TargetPort := k.SecureListenerPort },
       { Name := "ssl-listener", Protocol := "TCP", Port := k.SSLListenerPort,
         TargetPort := k.SSLListenerPort }] := by
    unfold NewSvc
    simp only
    split <;> rfl
  have hS : (NewSvc k before inst scheme lb).2.1.Selector = [("instance", inst.Name)] := by
    unfold NewSvc
    simp only
    split <;> rfl
  have hnode : k.SvcName inst.Name ++ "-" ++ "node" = k.SvcName inst.Name ++ "-node" := by
    rw [String.append_assoc]
    rfl
  rw [hT, hN, hA, hP, hS]
  by_cases hlb : lb = "node"
  · subst hlb
    simp [hnode]
  · cases hopt : inst.Spec.DBNetworkServiceOptions with
    | none => simp [hlb]
    | some networkOpts =>
      by_cases hint : networkOpts.GCP.LoadBalancerType = "Internal"
      · simp [hlb, hint]
      · simp [hlb, hint]

/-- Runs of `NewSvc`: node exposure, and internal load balancing. -/
theorem NewSvc_runs :
    (NewSvc sampleExternal sourceCidrRanges { Name := "orcl1", Namespace := "db" }
        sampleScheme "node").2.1 =
      { APIVersion := "v1", Kind := "Service", Name := "orcl1-svc-node", Namespace := "db",
        OwnerReferences :=
          [{ APIVersion := "oracle.db.anthosapis.com/v1alpha1", Kind := "Instance",
             Name := "orcl1", UID := "", Controller := some true,
             BlockOwnerDeletion := some true }],
        Selector := [("instance", "orcl1")],
        Ports := [{ Name := "secure-listener", Protocol := "TCP", Port := 6021,
                    TargetPort := 6021 },
                  { Name := "ssl-listener", Protocol := "TCP", Port := 3307,
                    TargetPort := 3307 }],
        Type_ := "NodePort" } ∧
    (NewSvc sampleExternal sourceCidrRanges
        { Name := "orcl1", Namespace := "db",
          Spec := { DBNetworkServiceOptions := some { GCP := { LoadBalancerType := "Internal" } } } }
        [] "lb").2.1 =
      { APIVersion := "v1", Kind := "Service", Name := "orcl1-svc", Namespace := "db",
        Annotations := [("cloud.google.com/load-balancer-type", "Internal")],
        Selector := [("instance", "orcl1")],
        Ports := [{ Name := "secure-listener", Protocol := "TCP", Port := 6021,
                    TargetPort := 6021 },
                  { Name := "ssl-listener", Protocol := "TCP", Port := 3307,
                    TargetPort := 3307 }],
        Type_ := "LoadBalancer" } := by
  decide

/-! ## Lemmas on the loop of `NewAgentSvc` -/

theorem NewAgentSvc.loop_append (k : External) (services : List (String × Bool))
    (ports : List ServicePort) (hkeys : (services.map Prod.fst).Nodup) :
    NewAgentSvc.loop k services ports =
      ports ++
        (if (k.Monitoring, true) ∈ services then
          [{ Name := k.MonitoringAgentName, Protocol := "TCP",
             Port := k.DefaultMonitoringAgentPort }]
        else []) := by
  induction services generalizing ports with
  | nil => simp [NewAgentSvc.loop]
  | cons e rest ih =>
    obtain ⟨service, enabled⟩ := e
    rw [List.map_cons, List.nodup_cons] at hkeys
    obtain ⟨hnot, hrest⟩ := hkeys
    rw [NewAgentSvc.loop]
    by_cases hs : service = k.Monitoring
    · have hmem : (k.Monitoring, true) ∉ rest := by
        intro hm
        have hkey : k.Monitoring ∈ rest.map Prod.fst := List.mem_map_of_mem Prod.fst hm
        rw [hs] at hnot
        exact hnot hkey
      cases enabled with
      | true => rw [if_pos hs, if_pos rfl, ih _ hrest]; simp [hs, hmem]
      | false => rw [if_pos hs, if_neg (by simp), ih _ hrest]; simp [hs, hmem]
    · rw [if_neg hs, ih _ hrest]
      have hne : (k.Monitoring, true) ≠ (service, enabled) := by
        intro h
        exact hs (congrArg Prod.fst h).symm
      simp [List.mem_cons, hne]

/-- C20: for every instance (its service-enablement map given by entries with
distinct keys), the agent service `NewAgentSvc` builds is of type ClusterIP and
its ports are the control-agent port first, followed by the monitoring port if
and only if the map maps Monitoring to true; an entry mapping Monitoring to
false and entries for other services add no port. -/
theorem NewAgentSvc_ports (k : External) (inst : Instance) (scheme : Scheme)
    (hkeys : (inst.Spec.Services.map Prod.fst).Nodup) :
    (NewAgentSvc k inst scheme).1.Type_ = "ClusterIP" ∧
    (NewAgentSvc k inst scheme).1.Ports =
      { Name := configAgentName, Protocol := "TCP", Port := k.DefaultConfigAgentPort,
        TargetPort := k.DefaultConfigAgentPort } ::
      (if (k.Monitoring, true) ∈ inst.Spec.Services then
        [{ Name := k.MonitoringAgentName, Protocol := "TCP",
           Port := k.DefaultMonitoringAgentPort }]
      else []) := by
  have hT : (NewAgentSvc k inst scheme).1.Type_ = "ClusterIP" := by
    unfold NewAgentSvc
    simp only
    split <;> rfl
  have hP : (NewAgentSvc k inst scheme).1.Ports =
      NewAgentSvc.loop k inst.Spec.Services
        [{ Name := configAgentName, Protocol := "TCP", Port := k.DefaultConfigAgentPort,
           TargetPort := k.DefaultConfigAgentPort }] := by
    unfold NewAgentSvc
    simp only
    split <;> rfl
  refine ⟨hT, ?_⟩
  rw [hP, NewAgentSvc.loop_append k _ _ hkeys]
  rfl

theorem NewAgentSvc_ports_witness :
    (NewAgentSvc sampleExternal
        { Name := "orcl1", Spec := { Services := [("Logging", true), ("Monitoring", true)] } }
        sampleScheme).1.Ports =
      [{ Name := "config-agent", Protocol := "TCP", Port := 3202, TargetPort := 3202 },
       { Name := "oracle-monitoring", Protocol := "TCP", Port := 9161 }] ∧
    (NewAgentSvc sampleExternal
        { Name := "orcl1", Spec := { Services := [("Logging", true), ("Monitoring", false)] } }
        sampleScheme).1.Ports =
      [{ Name := "config-agent", Protocol := "TCP", Port := 3202, TargetPort := 3202 }] :=
  ⟨(NewAgentSvc_ports sampleExternal
      { Name := "orcl1", Spec := { Services := [("Logging", true), ("Monitoring", true)] } }
      sampleScheme (by decide)).2,
   (NewAgentSvc_ports sampleExternal
      { Name := "orcl1", Spec := { Services := [("Logging", true), ("Monitoring", false)] } }
      sampleScheme (by decide)).2⟩

/-! ## Claims on owner references -/

/-- On an object without owner references, a successful
`SetControllerReference` leaves exactly one reference, to the owner. -/
theorem SetControllerReference_fresh (owner : Owner) (objectNamespace : String)
    (scheme : Scheme) (refs : List OwnerReference)
    (h : SetControllerReference owner objectNamespace [] scheme = .ok refs) :
    ownedOnlyBy owner scheme refs := by
  unfold SetControllerReference at h
  cases hv : validateOwner owner objectNamespace with
  | some err => rw [hv] at h; cases h
  | none =>
    rw [hv] at h
    cases hl : scheme.lookup owner.GoType with
    | none => rw [hl] at h; cases h
    | some gvk =>
      rw [hl] at h
      simp only [List.find?_nil, upsertOwnerRef, Except.ok.injEq] at h
      exact ⟨_, gvk, h.symm, hl, rfl, rfl, rfl, rfl, rfl⟩

theorem NewSvc_owner (k : External) (before : List String) (inst : Instance) (scheme : Scheme)
    (lb : String) (h : (NewSvc k before inst scheme lb).2.2 = none) :
    ownedOnlyBy inst.asOwner scheme (NewSvc k before inst scheme lb).2.1.OwnerReferences := by
  cases hres : SetControllerReference inst.asOwner inst.Namespace [] scheme with
  | error err => simp [NewSvc, hres] at h
  | ok refs =>
    have hrefs : (NewSvc k before inst scheme lb).2.1.OwnerReferences = refs := by
      simp [NewSvc, hres]
    rw [hrefs]
    exact SetControllerReference_fresh _ _ _ _ hres

theorem NewDBDaemonSvc_owner (k : External) (inst : Instance) (scheme : Scheme)
    (h : (NewDBDaemonSvc k inst scheme).2 = none) :
    ownedOnlyBy inst.asOwner scheme (NewDBDaemonSvc k inst scheme).1.OwnerReferences := by
  cases hres : SetControllerReference inst.asOwner inst.Namespace [] scheme with
  | error err => simp [NewDBDaemonSvc, hres] at h
  | ok refs =>
    have hrefs : (NewDBDaemonSvc k inst scheme).1.OwnerReferences = refs := by
      simp [NewDBDaemonSvc, hres]
    rw [hrefs]
    exact SetControllerReference_fresh _ _ _ _ hres

theorem NewAgentSvc_owner (k : External) (inst : Instance) (scheme : Scheme)
    (h : (NewAgentSvc k inst scheme).2 = none) :
    ownedOnlyBy inst.asOwner scheme (NewAgentSvc k inst scheme).1.OwnerReferences := by
  cases hres : SetControllerReference inst.asOwner inst.Namespace [] scheme with
  | error err => simp [NewAgentSvc, hres] at h
  | ok refs =>
    have hrefs : (NewAgentSvc k inst scheme).1.OwnerReferences = refs := by
      simp [NewAgentSvc, hres]
    rw [hrefs]
    exact SetControllerReference_fresh _ _ _ _ hres

theorem NewConfigMap_owner (k : External) (inst : Instance) (scheme : Scheme) (cmName : String)
    (h : (NewConfigMap k inst scheme cmName).2 = none) :
    ownedOnlyBy inst.asOwner scheme (NewConfigMap k inst scheme cmName).1.OwnerReferences := by
  cases hres : SetControllerReference inst.asOwner inst.Namespace [] scheme with
  | error err => simp [NewConfigMap, hres] at h
  | ok refs =>
    have hrefs : (NewConfigMap k inst scheme cmName).1.OwnerReferences = refs := by
      simp [NewConfigMap, hres]
    rw [hrefs]
    exact SetControllerReference_fresh _ _ _ _ hres

theorem NewSts_owner (sp : StsParams) (pvcs : List PersistentVolumeClaim)
    (podTemplate : PodTemplateSpec) (h : (NewSts sp pvcs podTemplate).2 = none) :
    ownedOnlyBy sp.Inst.asOwner sp.Scheme (NewSts sp pvcs podTemplate).1.OwnerReferences := by
  cases hres : SetControllerReference sp.Inst.asOwner sp.Inst.Namespace [] sp.Scheme with
  | error err => simp [NewSts, hres] at h
  | ok refs =>
    have hrefs : (NewSts sp pvcs podTemplate).1.OwnerReferences = refs := by
      simp [NewSts, hres]
    rw [hrefs]
    exact SetControllerReference_fresh _ _ _ _ hres

theorem NewAgentDeployment_owner (k : External) (agentDeployment : AgentDeploymentParams)
    (h : (NewAgentDeployment k agentDeployment).2 = none) :
    ownedOnlyBy agentDeployment.Inst.asOwner agentDeployment.Scheme
      (NewAgentDeployment k agentDeployment).1.OwnerReferences := by
  cases hres : SetControllerReference agentDeployment.Inst.asOwner
      agentDeployment.Inst.Namespace [] agentDeployment.Scheme with
  | error err => simp [NewAgentDeployment, hres] at h
  | ok refs =>
    have hrefs : (NewAgentDeployment k agentDeployment).1.OwnerReferences = refs := by
      simp [NewAgentDeployment, hres]
    rw [hrefs]
    exact SetControllerReference_fresh _ _ _ _ hres

theorem NewSnapshot_owner (backup : Backup) (scheme : Scheme)
    (pvcName snapName volumeSnapshotClassName : String)
    (h : (NewSnapshot backup scheme pvcName snapName volumeSnapshotClassName).2 = none) :
    ownedOnlyBy backup.asOwner scheme
      (NewSnapshot backup scheme pvcName snapName volumeSnapshotClassName).1.OwnerReferences := by
  cases hres : SetControllerReference backup.asOwner backup.Namespace [] scheme with
  | error err => simp [NewSnapshot, hres] at h
  | ok refs =>
    have hrefs : (NewSnapshot backup scheme pvcName snapName
        volumeSnapshotClassName).1.OwnerReferences = refs := by
      simp [NewSnapshot, hres]
    rw [hrefs]
    exact SetControllerReference_fresh _ _ _ _ hres

theorem NewSnapshotInst_owner (inst : Instance) (scheme : Scheme)
    (pvcName snapName volumeSnapshotClassName : String)
    (h : (NewSnapshotInst inst scheme pvcName snapName volumeSnapshotClassName).2 = none) :
    ownedOnlyBy inst.asOwner scheme
      (NewSnapshotInst inst scheme pvcName snapName volumeSnapshotClassName).1.OwnerReferences := by
  cases hres : SetControllerReference inst.asOwner inst.Namespace [] scheme with
  | error err => simp [NewSnapshotInst, hres] at h
  | ok refs =>
    have hrefs : (NewSnapshotInst inst scheme pvcName snapName
        volumeSnapshotClassName).1.OwnerReferences = refs := by
      simp [NewSnapshotInst, hres]
    rw [hrefs]
    exact SetControllerReference_fresh _ _ _ _ hres

/-- C15, as stated, fails for the claims of `NewPVCs`: the call on
`sampleRestoreParams` (whose scheme registers the instance type) succeeds and
returns two claims, and neither carries an owner reference. -/
theorem NewPVCs_claims_without_owner :
    (NewPVCs sampleDiskSpecs sampleGetPVCNameAndMount sampleRestoreParams).2 = none ∧
    (NewPVCs sampleDiskSpecs sampleGetPVCNameAndMount sampleRestoreParams).1.map
      (fun pvc => pvc.OwnerReferences) = [[], []] := by
  decide

/-- C15, amended: every resource returned by a successful call of `NewSvc`,
`NewDBDaemonSvc`, `NewAgentSvc`, `NewConfigMap`, `NewSts`, `NewAgentDeployment`
or `NewSnapshotInst` carries exactly one owner reference, a controller
reference to the instance, and every snapshot returned by a successful call of
`NewSnapshot` exactly one, to the backup; the claims `NewPVCs` returns carry no
owner reference. -/
theorem builders_owner_references :
    (∀ k before inst scheme lb, (NewSvc k before inst scheme lb).2.2 = none →
      ownedOnlyBy inst.asOwner scheme (NewSvc k before inst scheme lb).2.1.OwnerReferences) ∧
    (∀ k inst scheme, (NewDBDaemonSvc k inst scheme).2 = none →
      ownedOnlyBy inst.asOwner scheme (NewDBDaemonSvc k inst scheme).1.OwnerReferences) ∧
    (∀ k inst scheme, (NewAgentSvc k inst scheme).2 = none →
      ownedOnlyBy inst.asOwner scheme (NewAgentSvc k inst scheme).1.OwnerReferences) ∧
    (∀ k inst scheme cmName, (NewConfigMap k inst scheme cmName).2 = none →
      ownedOnlyBy inst.asOwner scheme (NewConfigMap k inst scheme cmName).1.OwnerReferences) ∧
    (∀ sp pvcs podTemplate, (NewSts sp pvcs podTemplate).2 = none →
      ownedOnlyBy sp.Inst.asOwner sp.Scheme (NewSts sp pvcs podTemplate).1.OwnerReferences) ∧
    (∀ k agentDeployment, (NewAgentDeployment k agentDeployment).2 = none →
      ownedOnlyBy agentDeployment.Inst.asOwner agentDeployment.Scheme
        (NewAgentDeployment k agentDeployment).1.OwnerReferences) ∧
    (∀ backup scheme pvcName snapName className,
      (NewSnapshot backup scheme pvcName snapName className).2 = none →
      ownedOnlyBy backup.asOwner scheme
        (NewSnapshot backup scheme pvcName snapName className).1.OwnerReferences) ∧
    (∀ inst scheme pvcName snapName className,
      (NewSnapshotInst inst scheme pvcName snapName className).2 = none →
      ownedOnlyBy inst.asOwner scheme
        (NewSnapshotInst inst scheme pvcName snapName className).1.OwnerReferences) ∧
    (∀ defaultDiskSpecs GetPVCNameAndMount sp,
      ∀ pvc ∈ (NewPVCs defaultDiskSpecs GetPVCNameAndMount sp).1, pvc.OwnerReferences = []) := by
  refine ⟨NewSvc_owner, NewDBDaemonSvc_owner, NewAgentSvc_owner, NewConfigMap_owner,
    NewSts_owner, NewAgentDeployment_owner, NewSnapshot_owner, NewSnapshotInst_owner, ?_⟩
  intro defaultDiskSpecs GetPVCNameAndMount sp pvc hpvc
  rcases NewPVCs_eq defaultDiskSpecs GetPVCNameAndMount sp with ⟨_, h1, _⟩ | ⟨_, hnil⟩
  · rw [h1] at hpvc
    obtain ⟨d, _, rfl⟩ := List.mem_map.mp hpvc
    rfl
  · rw [hnil] at hpvc
    cases hpvc

/-- Successful runs of the builders on sample inputs: each result carries the
one reference to its owner. -/
theorem builders_owner_references_runs :
    (NewDBDaemonSvc sampleExternal { Name := "orcl1", Namespace := "db", UID := "u-1" }
        sampleScheme).2 = none ∧
    (NewDBDaemonSvc sampleExternal { Name := "orcl1", Namespace := "db", UID := "u-1" }
        sampleScheme).1.OwnerReferences =
      [{ APIVersion := "oracle.db.anthosapis.com/v1alpha1", Kind := "Instance",
         Name := "orcl1", UID := "u-1", Controller := some true,
         BlockOwnerDeletion := some true }] ∧
    (NewSnapshot { Name := "bkp7", Namespace := "db", UID := "u-2" } sampleScheme
        "orcl1-pvc-u02" "snap-u02" "csi-gce-pd-snapshot-class").1.OwnerReferences =
      [{ APIVersion := "oracle.db.anthosapis.com/v1alpha1", Kind := "Backup",
         Name := "bkp7", UID := "u-2", Controller := some true,
         BlockOwnerDeletion := some true }] ∧
    (NewSts sampleRestoreParams [] {}).1.OwnerReferences =
      [{ APIVersion := "oracle.db.anthosapis.com/v1alpha1", Kind := "Instance",
         Name := "orcl1", UID := "", Controller := some true,
         BlockOwnerDeletion := some true }] ∧
    (NewDBDaemonSvc sampleExternal { Name := "orcl1", Namespace := "db" } []).2
      = some (.noKindRegistered "Instance") := by
  decide

/-! ## Claims on the workload template builder -/

/-- `NewPodTemplate` returns a template exactly when `resource.MustParse`
accepts the memory request: the instance's `MinMemoryForDBContainer` when set,
otherwise "4.0Gi". -/
theorem NewPodTemplate_isSome (k : External) (MustParse : String → Option Quantity)
    (GetPVCNameAndMount : String → String → String × String)
    (sp : StsParams) (cdbName DBDomain : String) :
    (NewPodTemplate k MustParse GetPVCNameAndMount sp cdbName DBDomain).isSome =
      (MustParse
        (if sp.Inst.Spec.MinMemoryForDBContainer ≠ "" then sp.Inst.Spec.MinMemoryForDBContainer
         else safeMinMemoryForDBContainer)).isSome := by
  unfold NewPodTemplate
  simp only
  split
  · rename_i hparse
    rw [hparse]
    rfl
  · rename_i hparse
    rw [hparse]
    rfl

/-- The init containers of a template `NewPodTemplate` returns, as the code
computes them. -/
theorem NewPodTemplate_initContainers_eq (k : External) (MustParse : String → Option Quantity)
    (GetPVCNameAndMount : String → String → String × String)
    (sp : StsParams) (cdbName DBDomain : String) (t : PodTemplateSpec)
    (h : NewPodTemplate k MustParse GetPVCNameAndMount sp cdbName DBDomain = some t) :
    ∃ dbinit : Container, dbinit.Name = "dbinit" ∧
      t.Spec.InitContainers =
        match sp.Config with
        | some c =>
          if c.Spec.Platform = platformMinikube ∨ c.Spec.Platform = platformKind then
            addHostpathInitContainer GetPVCNameAndMount sp [dbinit]
              (match sp.Inst.Spec.DatabaseUID with
               | some uid => uid
               | none => defaultUID)
              (match sp.Inst.Spec.DatabaseGID with
               | some gid => gid
               | none => defaultGID)
          else [dbinit]
        | none => [dbinit] := by
  unfold NewPodTemplate at h
  simp only at h
  split at h
  · cases h
  · injection h with h
    subst h
    exact ⟨_, rfl, rfl⟩

/-- C17: the init containers of the pod template `NewPodTemplate` returns are
exactly one container named dbinit when the global config is absent or its
platform is neither Minikube nor Kind, and exactly dbinit followed by
prepare-pv-container, the latter running as uid 0 and gid 0, when a global
config is present with platform Minikube or Kind. -/
theorem NewPodTemplate_initContainers (k : External) (MustParse : String → Option Quantity)
    (GetPVCNameAndMount : String → String → String × String)
    (sp : StsParams) (cdbName DBDomain : String) (t : PodTemplateSpec)
    (h : NewPodTemplate k MustParse GetPVCNameAndMount sp cdbName DBDomain = some t) :
    ((sp.Config = none ∨ ∃ c, sp.Config = some c ∧
        c.Spec.Platform ≠ platformMinikube ∧ c.Spec.Platform ≠ platformKind) →
      t.Spec.InitContainers.map (fun c => c.Name) = ["dbinit"]) ∧
    ((∃ c, sp.Config = some c ∧
        (c.Spec.Platform = platformMinikube ∨ c.Spec.Platform = platformKind)) →
      ∃ dbinit prepare securityContext, t.Spec.InitContainers = [dbinit, prepare] ∧
        dbinit.Name = "dbinit" ∧ prepare.Name = "prepare-pv-container" ∧
        prepare.SecurityContext = some securityContext ∧
        securityContext.RunAsUser = some 0 ∧ securityContext.RunAsGroup = some 0) := by
  obtain ⟨dbinit, hname, hinit⟩ :=
    NewPodTemplate_initContainers_eq k MustParse GetPVCNameAndMount sp cdbName DBDomain t h
  rw [hinit]
  constructor
  · rintro (hc | ⟨c, hc, hm, hk⟩)
    · rw [hc]
      simp [hname]
    · rw [hc]
      simp [hm, hk, hname]
  · rintro ⟨c, hc, hp⟩
    rw [hc]
    simp only [if_pos hp]
    exact ⟨dbinit, _, _, rfl, hname, rfl, rfl, rfl, rfl⟩

theorem NewPodTemplate_initContainers_witness :
    (∃ t, NewPodTemplate sampleExternal sampleMustParse sampleGetPVCNameAndMount
        (sampleParams none) "cdb" "example.com" = some t ∧
      t.Spec.InitContainers.map (fun c => c.Name) = ["dbinit"]) ∧
    (∃ t, NewPodTemplate sampleExternal sampleMustParse sampleGetPVCNameAndMount
        (sampleParams (some { Spec := { Platform := "Minikube" } })) "cdb" "example.com"
        = some t ∧
      ∃ dbinit prepare securityContext, t.Spec.InitContainers = [dbinit, prepare] ∧
        dbinit.Name = "dbinit" ∧ prepare.Name = "prepare-pv-container" ∧
        prepare.SecurityContext = some securityContext ∧
        securityContext.RunAsUser = some 0 ∧ securityContext.RunAsGroup = some 0) :=
  ⟨by
    cases ht : NewPodTemplate sampleExternal sampleMustParse sampleGetPVCNameAndMount
        (sampleParams none) "cdb" "example.com" with
    | none => exact absurd ht (by decide)
    | some t =>
      exact ⟨t, rfl,
        (NewPodTemplate_initContainers sampleExternal sampleMustParse sampleGetPVCNameAndMount
          (sampleParams none) "cdb" "example.com" t ht).1 (Or.inl rfl)⟩,
   by
    cases ht : NewPodTemplate sampleExternal sampleMustParse sampleGetPVCNameAndMount
        (sampleParams (some { Spec := { Platform := "Minikube" } })) "cdb" "example.com" with
    | none => exact absurd ht (by decide)
    | some t =>
      exact ⟨t, rfl,
        (NewPodTemplate_initContainers sampleExternal sampleMustParse sampleGetPVCNameAndMount
          (sampleParams (some { Spec := { Platform := "Minikube" } })) "cdb" "example.com" t
          ht).2 ⟨_, rfl, Or.inl rfl⟩⟩⟩

/-- C18: evaluation of the code where the claim expects one pull policy for every
container. Under a config with platform Kind the four steady-state containers
and dbinit have the policy IfNotPresent, and under platform Minikube the policy
Always, but the init container prepare-pv-container has no pull policy at all
(the empty string) in both cases. -/
theorem NewPodTemplate_prepare_pv_pull_policy :
    (NewPodTemplate sampleExternal sampleMustParse sampleGetPVCNameAndMount
        (sampleParams (some { Spec := { Platform := "Kind" } })) "cdb" "example.com").map
      (fun t => (t.Spec.Containers ++ t.Spec.InitContainers).map
        (fun c => (c.Name, c.ImagePullPolicy))) =
      some [("oracledb", "IfNotPresent"), ("dbdaemon", "IfNotPresent"),
            ("alert-log-sidecar", "IfNotPresent"), ("listener-log-sidecar", "IfNotPresent"),
            ("dbinit", "IfNotPresent"), ("prepare-pv-container", "")] ∧
    (NewPodTemplate sampleExternal sampleMustParse sampleGetPVCNameAndMount
        (sampleParams (some { Spec := { Platform := "Minikube" } })) "cdb" "example.com").map
      (fun t => (t.Spec.Containers ++ t.Spec.InitContainers).map
        (fun c => (c.Name, c.ImagePullPolicy))) =
      some [("oracledb", "Always"), ("dbdaemon", "Always"),
            ("alert-log-sidecar", "Always"), ("listener-log-sidecar", "Always"),
            ("dbinit", "Always"), ("prepare-pv-container", "")] := by
  decide

/-! ## Facts on the template `NewPodTemplate` returns -/

/-- The labels, volumes, security context, container mounts and init containers
of a template `NewPodTemplate` returns, as the code computes them. -/
theorem NewPodTemplate_fields (k : External) (MustParse : String → Option Quantity)
    (GetPVCNameAndMount : String → String → String × String)
    (sp : StsParams) (cdbName DBDomain : String) (t : PodTemplateSpec)
    (h : NewPodTemplate k MustParse GetPVCNameAndMount sp cdbName DBDomain = some t) :
    t.Labels =
      [("instance", sp.Inst.Name), ("statefulset", sp.StsName),
       ("app", k.DatabasePodAppLabel)] ∧
    t.Spec.Volumes = [{ Name := "var-tmp", EmptyDir := true },
                      { Name := "agent-repo", EmptyDir := true }] ∧
    t.Spec.SecurityContext = some
      { RunAsUser := some (match sp.Inst.Spec.DatabaseUID with
                           | some uid => uid
                           | none => defaultUID),
        RunAsGroup := some (match sp.Inst.Spec.DatabaseGID with
                            | some gid => gid
                            | none => defaultGID),
        FSGroup := some (match sp.Inst.Spec.DatabaseGID with
                         | some gid => gid
                         | none => defaultGID),
        RunAsNonRoot := some true } ∧
    t.Spec.Containers.map (fun c => (c.Name, c.VolumeMounts)) =
      [("oracledb",
          [{ Name := "var-tmp", MountPath := "/var/tmp" },
           { Name := "agent-repo", MountPath := "/agents" }]
            ++ buildPVCMounts GetPVCNameAndMount sp),
       ("dbdaemon",
          [{ Name := "var-tmp", MountPath := "/var/tmp" },
           { Name := "agent-repo", MountPath := "/agents" }]
            ++ buildPVCMounts GetPVCNameAndMount sp),
       ("alert-log-sidecar",
          [{ Name := (GetPVCNameAndMount sp.Inst.Name "DataDisk").1,
             MountPath := "/" ++ (GetPVCNameAndMount sp.Inst.Name "DataDisk").2 }]),
       ("listener-log-sidecar",
          [{ Name := (GetPVCNameAndMount sp.Inst.Name "DataDisk").1,
             MountPath := "/" ++ (GetPVCNameAndMount sp.Inst.Name "DataDisk").2 }])] ∧
    ∃ dbinit : Container, dbinit.Name = "dbinit" ∧
      dbinit.VolumeMounts = [{ Name := "agent-repo", MountPath := "/agents" }] ∧
      t.Spec.InitContainers =
        match sp.Config with
        | some c =>
          if c.Spec.Platform = platformMinikube ∨ c.Spec.Platform = platformKind then
            addHostpathInitContainer GetPVCNameAndMount sp [dbinit]
              (match sp.Inst.Spec.DatabaseUID with
               | some uid => uid
               | none => defaultUID)
              (match sp.Inst.Spec.DatabaseGID with
               | some gid => gid
               | none => defaultGID)
          else [dbinit]
        | none => [dbinit] := by
  unfold NewPodTemplate at h
  simp only at h
  split at h
  · cases h
  · injection h with h
    subst h
    exact ⟨rfl, rfl, rfl, rfl, _, rfl, rfl, rfl⟩

theorem NewAgentSvc_selector (k : External) (inst : Instance) (scheme : Scheme) :
    (NewAgentSvc k inst scheme).1.Selector = [("instance-agent", inst.Name ++ "-agent")] := by
  unfold NewAgentSvc
  simp only
  split <;> rfl

theorem NewDBDaemonSvc_selector (k : External) (inst : Instance) (scheme : Scheme) :
    (NewDBDaemonSvc k inst scheme).1.Selector = [("instance", inst.Name)] := by
  unfold NewDBDaemonSvc
  simp only
  split <;> rfl

theorem NewSvc_selector (k : External) (before : List String) (inst : Instance)
    (scheme : Scheme) (lb : String) :
    (NewSvc k before inst scheme lb).2.1.Selector = [("instance", inst.Name)] := by
  unfold NewSvc
  simp only
  split <;> rfl

theorem NewAgentDeployment_labels (k : External) (agentDeployment : AgentDeploymentParams) :
    (NewAgentDeployment k agentDeployment).1.Template.Labels =
      [("instance-agent", agentDeployment.Inst.Name ++ "-agent"),
       ("deployment", agentDeployment.Name)] := by
  unfold NewAgentDeployment
  simp only
  split <;> rfl

/-! ## Claims on selectors and pod labels -/

/-- C21: for one instance, the selector of the agent service (`NewAgentSvc`) is
matched by the pod labels of the agent deployment (`NewAgentDeployment`) and not
by the pod labels of the primary workload template (`NewPodTemplate`), and the
selectors of the data service (`NewSvc`) and of the control-daemon service
(`NewDBDaemonSvc`) are matched by the primary pod labels and not by the agent
pod labels. -/
theorem selectors_target_their_pods (k : External) (before : List String) (inst : Instance)
    (scheme : Scheme) (lb : String) (MustParse : String → Option Quantity)
    (GetPVCNameAndMount : String → String → String × String) (sp : StsParams)
    (cdbName DBDomain : String) (agentDeployment : AgentDeploymentParams)
    (t : PodTemplateSpec)
    (hsp : sp.Inst = inst) (hagent : agentDeployment.Inst = inst)
    (ht : NewPodTemplate k MustParse GetPVCNameAndMount sp cdbName DBDomain = some t) :
    selectorMatches (NewAgentSvc k inst scheme).1.Selector
      (NewAgentDeployment k agentDeployment).1.Template.Labels ∧
    ¬ selectorMatches (NewAgentSvc k inst scheme).1.Selector t.Labels ∧
    selectorMatches (NewSvc k before inst scheme lb).2.1.Selector t.Labels ∧
    ¬ selectorMatches (NewSvc k before inst scheme lb).2.1.Selector
      (NewAgentDeployment k agentDeployment).1.Template.Labels ∧
    selectorMatches (NewDBDaemonSvc k inst scheme).1.Selector t.Labels ∧
    ¬ selectorMatches (NewDBDaemonSvc k inst scheme).1.Selector
      (NewAgentDeployment k agentDeployment).1.Template.Labels := by
  have hlabels :=
    (NewPodTemplate_fields k MustParse GetPVCNameAndMount sp cdbName DBDomain t ht).1
  rw [NewAgentSvc_selector, NewSvc_selector, NewDBDaemonSvc_selector,
    NewAgentDeployment_labels, hlabels, hsp, hagent]
  simp [selectorMatches, List.lookup]

theorem selectors_target_their_pods_witness :
    ∃ t, NewPodTemplate sampleExternal sampleMustParse sampleGetPVCNameAndMount
        (sampleParams none) "cdb" "example.com" = some t ∧
      t.Labels = [("instance", "orcl1"), ("statefulset", "orcl1-sts"), ("app", "db-op")] ∧
      selectorMatches [("instance-agent", "orcl1-agent")]
        (NewAgentDeployment sampleExternal
          { Inst := { Name := "orcl1", Namespace := "db" }, Name := "orcl1-agent-deployment" }
          ).1.Template.Labels ∧
      ¬ selectorMatches (NewAgentSvc sampleExternal { Name := "orcl1", Namespace := "db" }
          sampleScheme).1.Selector t.Labels ∧
      selectorMatches (NewSvc sampleExternal sourceCidrRanges
          { Name := "orcl1", Namespace := "db" } sampleScheme "node").2.1.Selector t.Labels := by
  cases ht : NewPodTemplate sampleExternal sampleMustParse sampleGetPVCNameAndMount
      (sampleParams none) "cdb" "example.com" with
  | none => exact absurd ht (by decide)
  | some t =>
    have h := selectors_target_their_pods sampleExternal sourceCidrRanges
      { Name := "orcl1", Namespace := "db" } sampleScheme "node" sampleMustParse
      sampleGetPVCNameAndMount (sampleParams none) "cdb" "example.com"
      { Inst := { Name := "orcl1", Namespace := "db" }, Name := "orcl1-agent-deployment" }
      t rfl rfl ht
    have hl := (NewPodTemplate_fields sampleExternal sampleMustParse sampleGetPVCNameAndMount
      (sampleParams none) "cdb" "example.com" t ht).1
    exact ⟨t, rfl, hl, by
      have h1 := h.1
      rw [NewAgentSvc_selector] at h1
      exact h1, h.2.1, h.2.2.1⟩

/-! ## Claims on the containers of the workload template -/

/-- C22, as stated, fails for the two log sidecars: in the template built for
`sampleParams` without a config, oracledb and dbdaemon mount "var-tmp",
"agent-repo" and the two claims, while alert-log-sidecar and
listener-log-sidecar mount the DataDisk claim only, neither "var-tmp" nor
"agent-repo". -/
theorem NewPodTemplate_sidecar_mounts_only_data_disk :
    (NewPodTemplate sampleExternal sampleMustParse sampleGetPVCNameAndMount
        (sampleParams none) "cdb" "example.com").map
      (fun t => t.Spec.Containers.map
        (fun c => (c.Name, c.VolumeMounts.map (fun m => m.Name)))) =
      some [("oracledb", ["var-tmp", "agent-repo", "orcl1-pvc-u02", "orcl1-pvc-u03"]),
            ("dbdaemon", ["var-tmp", "agent-repo", "orcl1-pvc-u02", "orcl1-pvc-u03"]),
            ("alert-log-sidecar", ["orcl1-pvc-u02"]),
            ("listener-log-sidecar", ["orcl1-pvc-u02"])] := by
  decide

/-- C22, amended: in the pod template `NewPodTemplate` returns the steady-state
containers are oracledb, dbdaemon, alert-log-sidecar and listener-log-sidecar,
in that order; oracledb and dbdaemon mount the shared volumes "var-tmp" and
"agent-repo" followed by the claim of every disk of the disk list, and each of
the two log sidecars mounts the DataDisk claim and nothing else. -/
theorem NewPodTemplate_container_mounts (k : External) (MustParse : String → Option Quantity)
    (GetPVCNameAndMount : String → String → String × String)
    (sp : StsParams) (cdbName DBDomain : String) (t : PodTemplateSpec)
    (h : NewPodTemplate k MustParse GetPVCNameAndMount sp cdbName DBDomain = some t) :
    ∃ oracledb dbdaemon alert listener, t.Spec.Containers = [oracledb, dbdaemon, alert, listener] ∧
      oracledb.Name = "oracledb" ∧ dbdaemon.Name = "dbdaemon" ∧
      alert.Name = "alert-log-sidecar" ∧ listener.Name = "listener-log-sidecar" ∧
      oracledb.VolumeMounts =
        { Name := "var-tmp", MountPath := "/var/tmp" } ::
        { Name := "agent-repo", MountPath := "/agents" } ::
        sp.Disks.map (fun d =>
          { Name := (GetPVCNameAndMount sp.Inst.Name d.Name).1,
            MountPath := "/" ++ (GetPVCNameAndMount sp.Inst.Name d.Name).2 }) ∧
      dbdaemon.VolumeMounts = oracledb.VolumeMounts ∧
      alert.VolumeMounts =
        [{ Name := (GetPVCNameAndMount sp.Inst.Name "DataDisk").1,
           MountPath := "/" ++ (GetPVCNameAndMount sp.Inst.Name "DataDisk").2 }] ∧
      listener.VolumeMounts = alert.VolumeMounts := by
  unfold NewPodTemplate at h
  simp only at h
  split at h
  · cases h
  · injection h with h
    subst h
    exact ⟨_, _, _, _, rfl, rfl, rfl, rfl, rfl, rfl, rfl, rfl, rfl⟩

theorem NewPodTemplate_container_mounts_witness :
    ∃ t, NewPodTemplate sampleExternal sampleMustParse sampleGetPVCNameAndMount
        (sampleParams none) "cdb" "example.com" = some t ∧
      ∃ oracledb dbdaemon alert listener,
        t.Spec.Containers = [oracledb, dbdaemon, alert, listener] ∧
        oracledb.Name = "oracledb" ∧ dbdaemon.Name = "dbdaemon" ∧
        alert.Name = "alert-log-sidecar" ∧ listener.Name = "listener-log-sidecar" ∧
        oracledb.VolumeMounts =
          { Name := "var-tmp", MountPath := "/var/tmp" } ::
          { Name := "agent-repo", MountPath := "/agents" } ::
          (sampleParams none).Disks.map (fun d =>
            { Name := (sampleGetPVCNameAndMount (sampleParams none).Inst.Name d.Name).1,
              MountPath :=
                "/" ++ (sampleGetPVCNameAndMount (sampleParams none).Inst.Name d.Name).2 }) ∧
        dbdaemon.VolumeMounts = oracledb.VolumeMounts ∧
        alert.VolumeMounts =
          [{ Name := (sampleGetPVCNameAndMount (sampleParams none).Inst.Name "DataDisk").1,
             MountPath :=
               "/" ++ (sampleGetPVCNameAndMount (sampleParams none).Inst.Name "DataDisk").2 }] ∧
        listener.VolumeMounts = alert.VolumeMounts := by
  cases ht : NewPodTemplate sampleExternal sampleMustParse sampleGetPVCNameAndMount
      (sampleParams none) "cdb" "example.com" with
  | none => exact absurd ht (by decide)
  | some t =>
    exact ⟨t, rfl, NewPodTemplate_container_mounts sampleExternal sampleMustParse
      sampleGetPVCNameAndMount (sampleParams none) "cdb" "example.com" t ht⟩

/-! ## Claims on the agent deployment builder -/

theorem NewAgentDeployment.loop_replicate (k : External) (agentDeployment : AgentDeploymentParams)
    (monitoringAgentArgs : List String) (imagePullPolicy : String)
    (services : List String) (containers : List Container) :
    NewAgentDeployment.loop k agentDeployment monitoringAgentArgs imagePullPolicy services
        containers =
      containers ++ List.replicate (services.count k.Monitoring)
        { Name := k.MonitoringAgentName,
          Image := mapGet agentDeployment.Images "monitoring",
          Command := ["/monitoring_agent"],
          Args := monitoringAgentArgs,
          Ports := [{ Name := "oe-port", Protocol := "TCP",
                      ContainerPort := k.DefaultMonitoringAgentPort }],
          SecurityContext := some
            { AllowPrivilegeEscalation := some agentDeployment.PrivEscalation },
          ImagePullPolicy := imagePullPolicy } := by
  induction services generalizing containers with
  | nil => simp [NewAgentDeployment.loop]
  | cons s rest ih =>
    rw [NewAgentDeployment.loop]
    by_cases hs : s = k.Monitoring
    · rw [if_pos hs, ih, List.count_cons, if_pos (by simp [hs]), List.replicate_succ]
      simp
    · rw [if_neg hs, ih, List.count_cons, if_neg (by simp [hs])]
      rfl

/-- C23: for every list of enabled service identifiers, the containers of the
deployment `NewAgentDeployment` builds are the config-agent container first,
followed by one and the same monitoring container for each occurrence of the
Monitoring identifier in the list; every other identifier contributes no
container, so the count is 1 plus the number of Monitoring entries, and the
error the call returns does not depend on the list. -/
theorem NewAgentDeployment_containers (k : External) (agentDeployment : AgentDeploymentParams) :
    (∃ configAgent monitoring : Container,
      configAgent.Name = configAgentName ∧ monitoring.Name = k.MonitoringAgentName ∧
      (NewAgentDeployment k agentDeployment).1.Template.Spec.Containers =
        configAgent ::
          List.replicate (agentDeployment.Services.count k.Monitoring) monitoring) ∧
    (NewAgentDeployment k agentDeployment).1.Template.Spec.Containers.length =
      1 + agentDeployment.Services.count k.Monitoring ∧
    (∀ services, (NewAgentDeployment k { agentDeployment with Services := services }).2 =
      (NewAgentDeployment k agentDeployment).2) := by
  have hc : ∃ configAgent monitoring : Container,
      configAgent.Name = configAgentName ∧ monitoring.Name = k.MonitoringAgentName ∧
      (NewAgentDeployment k agentDeployment).1.Template.Spec.Containers =
        configAgent ::
          List.replicate (agentDeployment.Services.count k.Monitoring) monitoring := by
    unfold NewAgentDeployment
    simp only [NewAgentDeployment.loop_replicate]
    split <;> exact ⟨_, _, rfl, rfl, rfl⟩
  refine ⟨hc, ?_, ?_⟩
  · obtain ⟨_, _, _, _, h⟩ := hc
    rw [h]
    simp [Nat.add_comm]
  · intro services
    unfold NewAgentDeployment
    simp only
    split <;> split <;> simp_all

/-- A run of `NewAgentDeployment` with the services Monitoring, Logging,
Monitoring: three containers, and no error. -/
theorem NewAgentDeployment_run :
    (NewAgentDeployment sampleExternal
        { Inst := { Name := "orcl1", Namespace := "db" }, Scheme := sampleScheme,
          Name := "orcl1-agent-deployment",
          Services := ["Monitoring", "Logging", "Monitoring"] }).1.Template.Spec.Containers.map
      (fun c => c.Name) = ["config-agent", "oracle-monitoring", "oracle-monitoring"] ∧
    (NewAgentDeployment sampleExternal
        { Inst := { Name := "orcl1", Namespace := "db" }, Scheme := sampleScheme,
          Name := "orcl1-agent-deployment",
          Services := ["Monitoring", "Logging", "Monitoring"] }).2 = none := by
  decide

/-! ## Lemmas on the command of the permission-fixup container -/

theorem String.append_ne_empty_of_left (a b : String) (h : a ≠ "") : a ++ b ≠ "" := by
  intro hab
  apply h
  have hdata := congrArg String.data hab
  rw [String.data_append] at hdata
  exact String.ext (List.append_eq_nil.mp hdata).1

theorem addHostpathInitContainer.loop_go (uid gid : Int) (mounts : List VolumeMount)
    (cmd : String) (hcmd : cmd ≠ "") :
    addHostpathInitContainer.loop uid gid mounts cmd =
      String.intercalate.go cmd " && "
        (mounts.map fun mount =>
          "chown " ++ toString uid ++ ":" ++ toString gid ++ " " ++ mount.MountPath ++ " ") := by
  induction mounts generalizing cmd with
  | nil => rfl
  | cons mount rest ih =>
    rw [addHostpathInitContainer.loop]
    simp only [if_pos hcmd]
    rw [ih _ (String.append_ne_empty_of_left _ _
      (String.append_ne_empty_of_left _ _ hcmd))]
    rfl

theorem addHostpathInitContainer.loop_eq (uid gid : Int) (mounts : List VolumeMount) :
    addHostpathInitContainer.loop uid gid mounts "" =
      " && ".intercalate
        (mounts.map fun mount =>
          "chown " ++ toString uid ++ ":" ++ toString gid ++ " " ++ mount.MountPath ++ " ") := by
  cases mounts with
  | nil => rfl
  | cons mount rest =>
    rw [addHostpathInitContainer.loop]
    simp only [ne_eq, not_true_eq_false, if_false, String.empty_append]
    have hseg : "chown " ++ toString uid ++ ":" ++ toString gid ++ " " ++ mount.MountPath
        ++ " " ≠ "" := by
      repeat apply String.append_ne_empty_of_left
      decide
    rw [addHostpathInitContainer.loop_go uid gid rest _ hseg]
    rfl

/-! ## Claims on the process identity -/

/-- C24: in the template `NewPodTemplate` returns, the process ids are the
instance's `DatabaseUID` and `DatabaseGID` when specified and otherwise 54321
and 54322; the pod security context runs as that uid and gid, with the gid as
fsGroup and run-as-non-root true; and when the permission-fixup init container
is present (a config with platform Minikube or Kind) its shell command is, for
the disks of the disk list in order, the segments "chown uid:gid /mount "
joined by " && ", with those same ids, and it mounts every disk's claim. -/
theorem NewPodTemplate_process_ids (k : External) (MustParse : String → Option Quantity)
    (GetPVCNameAndMount : String → String → String × String)
    (sp : StsParams) (cdbName DBDomain : String) (t : PodTemplateSpec)
    (h : NewPodTemplate k MustParse GetPVCNameAndMount sp cdbName DBDomain = some t) :
    t.Spec.SecurityContext = some
      { RunAsUser := some (sp.Inst.Spec.DatabaseUID.getD 54321),
        RunAsGroup := some (sp.Inst.Spec.DatabaseGID.getD 54322),
        FSGroup := some (sp.Inst.Spec.DatabaseGID.getD 54322),
        RunAsNonRoot := some true } ∧
    ((∃ c, sp.Config = some c ∧
        (c.Spec.Platform = platformMinikube ∨ c.Spec.Platform = platformKind)) →
      ∃ dbinit prepare, t.Spec.InitContainers = [dbinit, prepare] ∧
        prepare.Name = "prepare-pv-container" ∧
        prepare.Command =
          ["sh", "-c",
           " && ".intercalate (sp.Disks.map fun d =>
             "chown " ++ toString (sp.Inst.Spec.DatabaseUID.getD 54321) ++ ":" ++
               toString (sp.Inst.Spec.DatabaseGID.getD 54322) ++ " " ++
               ("/" ++ (GetPVCNameAndMount sp.Inst.Name d.Name).2) ++ " ")] ∧
        prepare.VolumeMounts = sp.Disks.map (fun d =>
          { Name := (GetPVCNameAndMount sp.Inst.Name d.Name).1,
            MountPath := "/" ++ (GetPVCNameAndMount sp.Inst.Name d.Name).2 })) := by
  have huid : (match sp.Inst.Spec.DatabaseUID with
      | some uid => uid
      | none => defaultUID) = sp.Inst.Spec.DatabaseUID.getD 54321 := by
    cases sp.Inst.Spec.DatabaseUID <;> rfl
  have hgid : (match sp.Inst.Spec.DatabaseGID with
      | some gid => gid
      | none => defaultGID) = sp.Inst.Spec.DatabaseGID.getD 54322 := by
    cases sp.Inst.Spec.DatabaseGID <;> rfl
  obtain ⟨_, _, hsec, _, dbinit, _, _, hinit⟩ :=
    NewPodTemplate_fields k MustParse GetPVCNameAndMount sp cdbName DBDomain t h
  rw [huid, hgid] at hsec hinit
  refine ⟨hsec, ?_⟩
  rintro ⟨c, hc, hp⟩
  rw [hc] at hinit
  simp only [if_pos hp] at hinit
  rw [hinit]
  unfold addHostpathInitContainer
  refine ⟨dbinit, _, rfl, rfl, ?_, rfl⟩
  simp only [addHostpathInitContainer.loop_eq, buildPVCMounts, List.map_map]
  rfl

theorem NewPodTemplate_process_ids_witness :
    ∃ t, NewPodTemplate sampleExternal sampleMustParse sampleGetPVCNameAndMount
        { sampleParams (some { Spec := { Platform := "Kind" } }) with
          Inst := { Name := "orcl1", Namespace := "db", Spec := { DatabaseUID := some 1000 } } }
        "cdb" "example.com" = some t ∧
      t.Spec.SecurityContext = some
        { RunAsUser := some 1000, RunAsGroup := some 54322, FSGroup := some 54322,
          RunAsNonRoot := some true } ∧
      ∃ dbinit prepare, t.Spec.InitContainers = [dbinit, prepare] ∧
        prepare.Command =
          ["sh", "-c", "chown 1000:54322 /u02  && chown 1000:54322 /u03 "] := by
  cases ht : NewPodTemplate sampleExternal sampleMustParse sampleGetPVCNameAndMount
      { sampleParams (some { Spec := { Platform := "Kind" } }) with
        Inst := { Name := "orcl1", Namespace := "db", Spec := { DatabaseUID := some 1000 } } }
      "cdb" "example.com" with
  | none => exact absurd ht (by decide)
  | some t =>
    have h := NewPodTemplate_process_ids sampleExternal sampleMustParse
      sampleGetPVCNameAndMount
      { sampleParams (some { Spec := { Platform := "Kind" } }) with
        Inst := { Name := "orcl1", Namespace := "db", Spec := { DatabaseUID := some 1000 } } }
      "cdb" "example.com" t ht
    obtain ⟨dbinit, prepare, hinit, _, hcmd, _⟩ := h.2 ⟨_, rfl, Or.inr rfl⟩
    exact ⟨t, rfl, h.1, dbinit, prepare, hinit, by rw [hcmd]; decide⟩

/-! ## Provision of mounted volumes -/

/-- C25: evaluation of the code where the claim expects every mount to be
provided. For `sampleLogOnlyParams`, whose disk list is the single disk
"LogDisk", `NewPVCs` succeeds and returns the single claim "orcl1-pvc-u03", the
pod's own volumes are "var-tmp" and "agent-repo", oracledb and dbdaemon mount
these and the claim, and the two log sidecars of the template mount
"orcl1-pvc-u02", which nothing provides. -/
theorem NewPodTemplate_sidecar_mount_unprovided :
    (NewPVCs sampleDiskSpecs sampleGetPVCNameAndMount sampleLogOnlyParams).2 = none ∧
    (NewPVCs sampleDiskSpecs sampleGetPVCNameAndMount sampleLogOnlyParams).1.map
      (fun pvc => pvc.Name) = ["orcl1-pvc-u03"] ∧
    (NewPodTemplate sampleExternal sampleMustParse sampleGetPVCNameAndMount
        sampleLogOnlyParams "cdb" "example.com").map
      (fun t => t.Spec.Volumes.map (fun v => v.Name)) = some ["var-tmp", "agent-repo"] ∧
    (NewPodTemplate sampleExternal sampleMustParse sampleGetPVCNameAndMount
        sampleLogOnlyParams "cdb" "example.com").map
      (fun t => (t.Spec.Containers ++ t.Spec.InitContainers).map
        (fun c => (c.Name, c.VolumeMounts.map (fun m => m.Name)))) =
      some [("oracledb", ["var-tmp", "agent-repo", "orcl1-pvc-u03"]),
            ("dbdaemon", ["var-tmp", "agent-repo", "orcl1-pvc-u03"]),
            ("alert-log-sidecar", ["orcl1-pvc-u02"]),
            ("listener-log-sidecar", ["orcl1-pvc-u02"]),
            ("dbinit", ["agent-repo"])] := by
  decide

/-- Where the disk list has an entry named "DataDisk" no mount is left
unprovided: for every bundle for which `NewPVCs` succeeds and whose disk list
has such an entry, the pod's own volumes are "var-tmp" and "agent-repo", and
every volume mount of every container and init container of the template
`NewPodTemplate` returns names one of these volumes or one of the claims
`NewPVCs` returns. -/
theorem NewPodTemplate_mounts_provided (defaultDiskSpecs : List (String × DiskSpec))
    (k : External) (MustParse : String → Option Quantity)
    (GetPVCNameAndMount : String → String → String × String)
    (sp : StsParams) (cdbName DBDomain : String) (t : PodTemplateSpec)
    (hpvcs : (NewPVCs defaultDiskSpecs GetPVCNameAndMount sp).2 = none)
    (ht : NewPodTemplate k MustParse GetPVCNameAndMount sp cdbName DBDomain = some t)
    (hdata : ∃ d ∈ sp.Disks, d.Name = "DataDisk") :
    t.Spec.Volumes.map (fun v => v.Name) = ["var-tmp", "agent-repo"] ∧
    ∀ c ∈ t.Spec.Containers ++ t.Spec.InitContainers, ∀ m ∈ c.VolumeMounts,
      m.Name ∈ t.Spec.Volumes.map (fun v => v.Name) ∨
      m.Name ∈ (NewPVCs defaultDiskSpecs GetPVCNameAndMount sp).1.map (fun pvc => pvc.Name) := by
  have hclaims : (NewPVCs defaultDiskSpecs GetPVCNameAndMount sp).1.map (fun pvc => pvc.Name) =
      sp.Disks.map (fun d => (GetPVCNameAndMount sp.Inst.Name d.Name).1) := by
    rcases NewPVCs_eq defaultDiskSpecs GetPVCNameAndMount sp with ⟨_, h1, _⟩ | ⟨hne, _⟩
    · rw [h1, List.map_map]
      rfl
    · exact absurd hpvcs hne
  obtain ⟨_, hvol, _, hcont, dbinit, _, hdbinit, hinit⟩ :=
    NewPodTemplate_fields k MustParse GetPVCNameAndMount sp cdbName DBDomain t ht
  have hvolNames : t.Spec.Volumes.map (fun v => v.Name) = ["var-tmp", "agent-repo"] := by
    rw [hvol]
    rfl
  -- the mounts `buildPVCMounts` lists are claims
  have hbuilt : ∀ m ∈ buildPVCMounts GetPVCNameAndMount sp,
      m.Name ∈ sp.Disks.map (fun d => (GetPVCNameAndMount sp.Inst.Name d.Name).1) := by
    intro m hm
    unfold buildPVCMounts at hm
    obtain ⟨d, hd, rfl⟩ := List.mem_map.mp hm
    exact List.mem_map.mpr ⟨d, hd, rfl⟩
  -- the shared mounts followed by the claims
  have hshared : ∀ m ∈ ([{ Name := "var-tmp", MountPath := "/var/tmp" },
        { Name := "agent-repo", MountPath := "/agents" }] : List VolumeMount)
        ++ buildPVCMounts GetPVCNameAndMount sp,
      m.Name ∈ ["var-tmp", "agent-repo"] ∨
      m.Name ∈ sp.Disks.map (fun d => (GetPVCNameAndMount sp.Inst.Name d.Name).1) := by
    intro m hm
    rcases List.mem_append.mp hm with hm | hm
    · left
      simp only [List.mem_cons, List.mem_singleton, List.not_mem_nil, or_false] at hm
      rcases hm with rfl | rfl <;> simp
    · exact Or.inr (hbuilt m hm)
  -- the DataDisk claim
  have hdisk : (GetPVCNameAndMount sp.Inst.Name "DataDisk").1 ∈
      sp.Disks.map (fun d => (GetPVCNameAndMount sp.Inst.Name d.Name).1) := by
    obtain ⟨d, hd, hname⟩ := hdata
    exact List.mem_map.mpr ⟨d, hd, by rw [hname]⟩
  refine ⟨hvolNames, ?_⟩
  rw [hvolNames, hclaims]
  intro c hc m hm
  rcases List.mem_append.mp hc with hc | hc
  · have hpair : (c.Name, c.VolumeMounts) ∈
        t.Spec.Containers.map (fun c => (c.Name, c.VolumeMounts)) :=
      List.mem_map_of_mem (fun c => (c.Name, c.VolumeMounts)) hc
    rw [hcont] at hpair
    simp only [List.mem_cons, Prod.mk.injEq, List.not_mem_nil, or_false] at hpair
    rcases hpair with ⟨_, hv⟩ | ⟨_, hv⟩ | ⟨_, hv⟩ | ⟨_, hv⟩
    · rw [hv] at hm
      exact hshared m hm
    · rw [hv] at hm
      exact hshared m hm
    · rw [hv, List.mem_singleton] at hm
      subst hm
      exact Or.inr hdisk
    · rw [hv, List.mem_singleton] at hm
      subst hm
      exact Or.inr hdisk
  · have hinitMounts : c = dbinit ∨ c.VolumeMounts = buildPVCMounts GetPVCNameAndMount sp := by
      rw [hinit] at hc
      cases hcfg : sp.Config with
      | none =>
        rw [hcfg] at hc
        exact Or.inl (List.mem_singleton.mp hc)
      | some cfg =>
        rw [hcfg] at hc
        by_cases hp : cfg.Spec.Platform = platformMinikube ∨ cfg.Spec.Platform = platformKind
        · simp only [if_pos hp] at hc
          unfold addHostpathInitContainer at hc
          rcases List.mem_append.mp hc with hc | hc
          · exact Or.inl (List.mem_singleton.mp hc)
          · right
            rw [List.mem_singleton.mp hc]
        · simp only [if_neg hp] at hc
          exact Or.inl (List.mem_singleton.mp hc)
    rcases hinitMounts with rfl | hv
    · rw [hdbinit, List.mem_singleton] at hm
      subst hm
      left
      simp
    · rw [hv] at hm
      exact Or.inr (hbuilt m hm)

/-- A run of the previous fact on `sampleParams` under platform Kind. -/
theorem NewPodTemplate_mounts_provided_witness :
    ∃ t, NewPodTemplate sampleExternal sampleMustParse sampleGetPVCNameAndMount
        (sampleParams (some { Spec := { Platform := "Kind", StorageClass := "standard" } }))
        "cdb" "example.com" = some t ∧
      t.Spec.Volumes.map (fun v => v.Name) = ["var-tmp", "agent-repo"] ∧
      ∀ c ∈ t.Spec.Containers ++ t.Spec.InitContainers, ∀ m ∈ c.VolumeMounts,
        m.Name ∈ t.Spec.Volumes.map (fun v => v.Name) ∨
        m.Name ∈ (NewPVCs sampleDiskSpecs sampleGetPVCNameAndMount
          (sampleParams (some { Spec := { Platform := "Kind", StorageClass := "standard" } }))
          ).1.map (fun pvc => pvc.Name) := by
  cases ht : NewPodTemplate sampleExternal sampleMustParse sampleGetPVCNameAndMount
      (sampleParams (some { Spec := { Platform := "Kind", StorageClass := "standard" } }))
      "cdb" "example.com" with
  | none => exact absurd ht (by decide)
  | some t =>
    exact ⟨t, rfl, NewPodTemplate_mounts_provided sampleDiskSpecs sampleExternal
      sampleMustParse sampleGetPVCNameAndMount
      (sampleParams (some { Spec := { Platform := "Kind", StorageClass := "standard" } }))
      "cdb" "example.com" t (by decide) ht
      ⟨({ Name := "DataDisk" } : DiskSpec), (by decide), rfl⟩⟩

/-! ## Claims on the database domain -/

theorem dropWhile_not_dot (pre post : List Char) (hpre : '.' ∉ pre) :
    (pre ++ '.' :: post).dropWhile (fun c => c ≠ '.') = '.' :: post := by
  induction pre with
  | nil => simp [List.dropWhile]
  | cons a rest ih =>
    have ha : a ≠ '.' := fun h => hpre (h ▸ List.mem_cons_self _ _)
    have hrest : '.' ∉ rest := fun h => hpre (List.mem_cons_of_mem _ h)
    rw [List.cons_append, List.dropWhile_cons, if_pos (by simpa using ha)]
    exact ih hrest

theorem dropWhile_not_dot_of_mem (l : List Char) (h : '.' ∈ l) :
    ∃ post, l.dropWhile (fun c => c ≠ '.') = '.' :: post := by
  induction l with
  | nil => cases h
  | cons a rest ih =>
    by_cases ha : a = '.'
    · subst ha
      exact ⟨rest, by simp [List.dropWhile]⟩
    · rw [List.dropWhile_cons, if_pos (by simpa using ha)]
      rcases List.mem_cons.mp h with h | h
      · exact absurd h.symm ha
      · exact ih h

/-- C26: `GetDBDomain` returns the part of `DBUniqueName` after its first "."
whenever `DBUniqueName` contains a "." (the part may contain further dots or be
empty, and the field `DBDomain` is not read), and returns the field `DBDomain`
unchanged whenever `DBUniqueName` contains no ".". A name that contains a "."
always splits into a dot-free part, the first ".", and the rest. -/
theorem GetDBDomain_spec (inst : Instance) :
    (∀ pre post : String, inst.Spec.DBUniqueName = pre ++ "." ++ post → '.' ∉ pre.toList →
      GetDBDomain inst = post) ∧
    ('.' ∉ inst.Spec.DBUniqueName.toList → GetDBDomain inst = inst.Spec.DBDomain) ∧
    ('.' ∈ inst.Spec.DBUniqueName.toList →
      ∃ pre post : String, inst.Spec.DBUniqueName = pre ++ "." ++ post ∧ '.' ∉ pre.toList) := by
  refine ⟨?_, ?_, ?_⟩
  · intro pre post hname hpre
    have hlist : inst.Spec.DBUniqueName.toList = pre.toList ++ '.' :: post.toList := by
      rw [hname]
      simp [String.toList, String.data_append]
    have hmem : '.' ∈ inst.Spec.DBUniqueName.toList := by
      rw [hlist]
      simp
    unfold GetDBDomain containsDot afterFirstDot
    rw [if_pos (by simpa using hmem), hlist, dropWhile_not_dot _ _ hpre]
    rfl
  · intro hno
    unfold GetDBDomain containsDot
    rw [if_neg (by simpa using hno)]
  · intro hmem
    obtain ⟨post, hpost⟩ := dropWhile_not_dot_of_mem _ hmem
    refine ⟨String.mk (inst.Spec.DBUniqueName.toList.takeWhile (fun c => c ≠ '.')),
      String.mk post, ?_, ?_⟩
    · apply String.ext
      have hsplit := List.takeWhile_append_dropWhile (fun c => decide (c ≠ '.'))
        inst.Spec.DBUniqueName.toList
      rw [hpost] at hsplit
      simp only [String.data_append]
      rw [List.append_assoc]
      exact hsplit.symm
    · intro hin
      have := List.mem_takeWhile_imp hin
      simp at this

theorem GetDBDomain_runs :
    GetDBDomain { Spec := { DBUniqueName := "orcl.example.com", DBDomain := "ignored.org" } }
      = "example.com" ∧
    GetDBDomain { Spec := { DBUniqueName := "orcl.", DBDomain := "ignored.org" } } = "" ∧
    GetDBDomain { Spec := { DBUniqueName := "orcl", DBDomain := "example.org" } }
      = "example.org" := by
  decide

/-! ## The empty value of the attribute resolver -/

/-- Runs of `ConfigAttribute` around the empty value: a config with a snapshot
class, no config, and a config without a snapshot class. -/
theorem ConfigAttribute_empty_value_runs :
    ConfigAttribute "VolumeSnapshotClass" ""
        (some { Spec := { VolumeSnapshotClass := "local-snap" } }) = ("local-snap", none) ∧
    ConfigAttribute "VolumeSnapshotClass" "" none = ("csi-gce-pd-snapshot-class", none) ∧
    ConfigAttribute "VolumeSnapshotClass" "" (some { Spec := { Platform := "Kind" } })
      = ("", none) := by
  decide

end Controllers
